import Mathlib

set_option maxRecDepth 100000

/-!
Verification of the nullifier mixer program: a shallow embedding of
programs/nullifier/src/merkle.rs, lib.rs and groth16.rs, together with
theorems about the Merkle proof verifier, the hard-coded zero-value table,
the nullifier registry, the fee arithmetic and the deposit/withdraw state
machine.

Machine integers are modelled as Nat (u64/u32/usize) and Int (i64); the
checked_* operations make the u64/i64 overflow behaviour explicit. Fallible
instructions return Except MixerError MixerState; the surrounding runtime
discards every write of an instruction that returns an error, which the
model expresses by applyOp/applyExcept keeping the pre-state on error.
-/

namespace Nullifier

abbrev Bytes := List Nat

/-! ### SHA-256 (the sha2::Sha256 hash used by merkle.rs)

A 32-bit word is a Nat below 2^32. For efficient kernel evaluation the
eight-word state and the message schedule are packed into single Nats,
32 bits per limb; this is the standard FIPS 180-4 algorithm. -/

def w32 (x : Nat) : Nat := x % 4294967296

def rotr (x n : Nat) : Nat := w32 ((x >>> n) ||| (x <<< (32 - n)))

def shCh (e f g : Nat) : Nat := (e &&& f) ^^^ ((e ^^^ 4294967295) &&& g)

def shMaj (a b c : Nat) : Nat := (a &&& b) ^^^ (a &&& c) ^^^ (b &&& c)

def bsig0 (x : Nat) : Nat := (rotr x 2) ^^^ (rotr x 13) ^^^ (rotr x 22)

def bsig1 (x : Nat) : Nat := (rotr x 6) ^^^ (rotr x 11) ^^^ (rotr x 25)

def ssig0 (x : Nat) : Nat := (rotr x 7) ^^^ (rotr x 18) ^^^ (x >>> 3)

def ssig1 (x : Nat) : Nat := (rotr x 17) ^^^ (rotr x 19) ^^^ (x >>> 10)

def sha256K : List Nat :=
  [1116352408, 1899447441, 3049323471, 3921009573, 961987163, 1508970993,
   2453635748, 2870763221, 3624381080, 310598401, 607225278, 1426881987,
   1925078388, 2162078206, 2614888103, 3248222580, 3835390401, 4022224774,
   264347078, 604807628, 770255983, 1249150122, 1555081692, 1996064986,
   2554220882, 2821834349, 2952996808, 3210313671, 3336571891, 3584528711,
   113926993, 338241895, 666307205, 773529912, 1294757372, 1396182291,
   1695183700, 1986661051, 2177026350, 2456956037, 2730485921, 2820302411,
   3259730800, 3345764771, 3516065817, 3600352804, 4094571909, 275423344,
   430227734, 506948616, 659060556, 883997877, 958139571, 1322822218,
   1537002063, 1747873779, 1955562222, 2024104815, 2227730452, 2361852424,
   2428436474, 2756734187, 3204031479, 3329325298]

def sha256H0 : List Nat :=
  [1779033703, 3144134277, 1013904242, 2773480762,
   1359893119, 2600822924, 528734635, 1541459225]

def limb (x i : Nat) : Nat := (x >>> (32 * i)) &&& 4294967295

def pack8 (a b c d e f g h : Nat) : Nat :=
  a ||| (b <<< 32) ||| (c <<< 64) ||| (d <<< 96) ||| (e <<< 128) ||| (f <<< 160) ||| (g <<< 192) ||| (h <<< 224)

def packWords : List Nat → Nat
  | [] => 0
  | wrd :: ws => wrd ||| (packWords ws <<< 32)

def schedGo : Nat → Nat → Nat → Nat
  | 0, _, W => W
  | fuel + 1, i, W =>
    let t := w32 (ssig1 (limb W (i - 2)) + limb W (i - 7) + ssig0 (limb W (i - 15)) + limb W (i - 16))
    schedGo fuel (i + 1) (W ||| (t <<< (32 * i)))

def roundsGo : Nat → Nat → Nat → Nat → Nat
  | 0, _, _, S => S
  | fuel + 1, i, W, S =>
    let a := limb S 0
    let b := limb S 1
    let c := limb S 2
    let d := limb S 3
    let e := limb S 4
    let f := limb S 5
    let g := limb S 6
    let hh := limb S 7
    let t1 := w32 (hh + bsig1 e + shCh e f g + limb (packWords sha256K) i + limb W i)
    let t2 := w32 (bsig0 a + shMaj a b c)
    roundsGo fuel (i + 1) W (pack8 (w32 (t1 + t2)) a b c (w32 (d + t1)) e f g)

def compress (S : Nat) (m : List Nat) : Nat :=
  let W := schedGo 48 16 (packWords m)
  let F := roundsGo 64 0 W S
  pack8 (w32 (limb S 0 + limb F 0)) (w32 (limb S 1 + limb F 1)) (w32 (limb S 2 + limb F 2))
    (w32 (limb S 3 + limb F 3)) (w32 (limb S 4 + limb F 4)) (w32 (limb S 5 + limb F 5))
    (w32 (limb S 6 + limb F 6)) (w32 (limb S 7 + limb F 7))

def toBytesBE : Nat → Nat → List Nat
  | 0, _ => []
  | n + 1, x => toBytesBE n (x / 256) ++ [x % 256]

def bytesToWords : List Nat → List Nat
  | b0 :: b1 :: b2 :: b3 :: rest =>
    (b0 * 16777216 + b1 * 65536 + b2 * 256 + b3) :: bytesToWords rest
  | _ => []

def padMessage (msg : Bytes) : Bytes :=
  let n := msg.length
  msg ++ 128 :: List.replicate ((119 - n % 64) % 64) 0 ++ toBytesBE 8 (8 * n)

def chunksGo : Nat → List Nat → List (List Nat)
  | 0, _ => []
  | fuel + 1, ws => if ws.isEmpty then [] else ws.take 16 :: chunksGo fuel (ws.drop 16)

/-- SHA-256 of a byte string (each element a byte value below 256). -/
def sha256 (msg : Bytes) : Bytes :=
  let ws := bytesToWords (padMessage msg)
  let final := (chunksGo ws.length ws).foldl compress (packWords sha256H0)
  ((List.range 8).map (fun i => toBytesBE 4 (limb final i))).flatten

/-! ### merkle.rs -/

/-- Merkle tree depth (merkle.rs line 4): supports 2^20 deposits. -/
def MERKLE_TREE_DEPTH : Nat := 20

/-- Level 0 of the hard-coded ZERO_VALUES table in merkle.rs. -/
def zv0 : Bytes :=
  [0, 0, 0, 0, 0, 0, 0, 0, 0, 0, 0, 0, 0, 0, 0, 0, 0, 0, 0, 0, 0, 0, 0, 0, 0, 0, 0, 0, 0, 0, 0, 0]

/-- Level 1 of the hard-coded ZERO_VALUES table in merkle.rs. -/
def zv1 : Bytes :=
  [245, 165, 253, 66, 209, 106, 32, 48, 39, 152, 239, 110, 211, 9, 151, 155, 67, 0, 61, 35, 32, 217, 240, 232, 234, 152, 49, 169, 39, 89, 251, 75]

/-- Level 2 of the hard-coded ZERO_VALUES table in merkle.rs. -/
def zv2 : Bytes :=
  [219, 86, 17, 78, 0, 253, 212, 193, 248, 92, 137, 43, 243, 90, 201, 168, 146, 137, 170, 236, 177, 235, 208, 169, 108, 222, 96, 106, 116, 139, 93, 113]

/-- Level 3 of the hard-coded ZERO_VALUES table in merkle.rs. -/
def zv3 : Bytes :=
  [199, 128, 9, 253, 240, 127, 197, 106, 17, 241, 34, 55, 6, 88, 163, 83, 170, 165, 66, 237, 99, 228, 76, 75, 193, 95, 244, 205, 16, 90, 179, 60]

/-- Level 4 of the hard-coded ZERO_VALUES table in merkle.rs. -/
def zv4 : Bytes :=
  [83, 109, 152, 131, 127, 45, 209, 101, 165, 93, 94, 234, 233, 20, 133, 149, 68, 114, 213, 111, 36, 109, 242, 86, 191, 60, 174, 25, 53, 42, 18, 60]

/-- Level 5 of the hard-coded ZERO_VALUES table in merkle.rs. -/
def zv5 : Bytes :=
  [158, 253, 224, 82, 170, 21, 66, 159, 174, 5, 186, 212, 208, 177, 215, 198, 77, 166, 77, 3, 215, 161, 133, 74, 88, 140, 44, 184, 67, 12, 13, 48]

/-- Level 6 of the hard-coded ZERO_VALUES table in merkle.rs. -/
def zv6 : Bytes :=
  [216, 141, 223, 238, 212, 0, 168, 117, 85, 150, 178, 25, 66, 193, 73, 126, 17, 76, 48, 46, 97, 24, 41, 15, 145, 230, 119, 41, 118, 4, 31, 161]

/-- Level 7 of the hard-coded ZERO_VALUES table in merkle.rs. -/
def zv7 : Bytes :=
  [135, 235, 13, 219, 165, 126, 53, 246, 210, 134, 103, 56, 2, 164, 175, 89, 117, 226, 37, 6, 199, 207, 76, 100, 187, 107, 229, 238, 17, 82, 127, 44]

/-- Level 8 of the hard-coded ZERO_VALUES table in merkle.rs. -/
def zv8 : Bytes :=
  [38, 132, 100, 118, 253, 95, 197, 74, 93, 67, 56, 81, 103, 201, 81, 68, 242, 100, 63, 83, 60, 200, 91, 185, 209, 107, 120, 47, 141, 125, 177, 147]

/-- Level 9 of the hard-coded ZERO_VALUES table in merkle.rs. -/
def zv9 : Bytes :=
  [80, 109, 134, 88, 45, 37, 36, 5, 184, 64, 1, 135, 146, 202, 210, 191, 18, 89, 241, 239, 90, 165, 248, 135, 225, 60, 178, 240, 9, 79, 81, 225]

/-- Level 10 of the hard-coded ZERO_VALUES table in merkle.rs. -/
def zv10 : Bytes :=
  [255, 255, 10, 215, 230, 89, 119, 47, 149, 52, 193, 149, 200, 21, 239, 196, 1, 78, 241, 225, 218, 237, 68, 4, 192, 99, 133, 209, 17, 146, 233, 43]

/-- Level 11 of the hard-coded ZERO_VALUES table in merkle.rs. -/
def zv11 : Bytes :=
  [108, 240, 65, 39, 219, 5, 68, 28, 216, 51, 16, 122, 82, 190, 133, 40, 104, 137, 14, 67, 23, 230, 160, 42, 180, 118, 131, 170, 117, 150, 66, 32]

/-- Level 12 of the hard-coded ZERO_VALUES table in merkle.rs. -/
def zv12 : Bytes :=
  [183, 208, 95, 135, 95, 20, 0, 39, 239, 81, 24, 162, 36, 123, 187, 132, 206, 143, 47, 15, 17, 35, 98, 48, 133, 218, 247, 150, 12, 50, 159, 95]

/-- Level 13 of the hard-coded ZERO_VALUES table in merkle.rs. -/
def zv13 : Bytes :=
  [223, 106, 245, 245, 187, 219, 107, 233, 239, 138, 166, 24, 228, 191, 128, 115, 150, 8, 103, 23, 30, 41, 103, 111, 139, 40, 77, 234, 106, 8, 168, 94]

/-- Level 14 of the hard-coded ZERO_VALUES table in merkle.rs. -/
def zv14 : Bytes :=
  [181, 141, 144, 15, 94, 24, 46, 60, 80, 239, 116, 150, 158, 161, 108, 119, 38, 197, 73, 117, 124, 194, 53, 35, 195, 105, 88, 125, 167, 41, 55, 132]

/-- Level 15 of the hard-coded ZERO_VALUES table in merkle.rs. -/
def zv15 : Bytes :=
  [212, 154, 117, 2, 255, 207, 176, 52, 11, 29, 120, 133, 104, 133, 0, 202, 48, 129, 97, 167, 249, 107, 98, 223, 157, 8, 59, 113, 252, 200, 242, 187]

/-- Level 16 of the hard-coded ZERO_VALUES table in merkle.rs. -/
def zv16 : Bytes :=
  [143, 230, 177, 104, 146, 86, 192, 211, 133, 244, 47, 91, 190, 32, 39, 162, 44, 25, 150, 225, 16, 186, 151, 193, 113, 211, 229, 148, 141, 233, 43, 235]

/-- Level 17 of the hard-coded ZERO_VALUES table in merkle.rs. -/
def zv17 : Bytes :=
  [141, 13, 99, 195, 158, 186, 222, 133, 9, 224, 174, 60, 156, 56, 118, 251, 95, 161, 18, 190, 24, 249, 5, 236, 172, 254, 203, 146, 5, 118, 3, 171]

/-- Level 18 of the hard-coded ZERO_VALUES table in merkle.rs. -/
def zv18 : Bytes :=
  [149, 238, 200, 178, 229, 65, 202, 212, 233, 29, 227, 131, 133, 242, 224, 70, 97, 159, 84, 73, 108, 35, 130, 203, 108, 172, 213, 185, 140, 38, 245, 164]

/-- Level 19 of the hard-coded ZERO_VALUES table in merkle.rs. -/
def zv19 : Bytes :=
  [248, 147, 233, 8, 145, 119, 117, 182, 43, 255, 35, 41, 77, 187, 227, 161, 205, 142, 108, 193, 195, 91, 72, 1, 136, 123, 100, 106, 111, 129, 241, 127]

/-- Level 20 of the hard-coded ZERO_VALUES table in merkle.rs. -/
def zv20 : Bytes :=
  [205, 219, 167, 181, 146, 227, 19, 51, 147, 193, 97, 148, 250, 199, 67, 26, 191, 47, 84, 133, 237, 113, 29, 178, 130, 24, 60, 129, 158, 8, 235, 170]

/-- The hard-coded constant table ZERO_VALUES (merkle.rs lines 9-52). -/
def ZERO_VALUES : List Bytes :=
  [zv0, zv1, zv2, zv3, zv4, zv5, zv6, zv7, zv8, zv9, zv10, zv11, zv12, zv13, zv14, zv15, zv16, zv17, zv18, zv19, zv20]

/-- hash_pair (merkle.rs lines 55-61): SHA-256 of the concatenation of two 32-byte values. -/
def hash_pair (left right : Bytes) : Bytes := sha256 (left ++ right)

/-- compute_commitment (merkle.rs lines 64-70): SHA-256 of secret followed by nullifier. -/
def compute_commitment (secret nullifier : Bytes) : Bytes := sha256 (secret ++ nullifier)

/-- verify_merkle_proof (merkle.rs lines 73-92): fold the leaf through the path,
hashing (path[i], current) when path_indices[i] is set and (current, path[i])
otherwise, and compare the result with the claimed root. -/
def verify_merkle_proof (leaf : Bytes) (path : List Bytes) (path_indices : List Bool)
    (root : Bytes) : Bool :=
  ((path.zip path_indices).foldl
    (fun current pi => if pi.2 then hash_pair pi.1 current else hash_pair current pi.1)
    leaf) == root

/-- compute_merkle_root (merkle.rs lines 95-113): the same fold, returning the value. -/
def compute_merkle_root (leaf : Bytes) (path : List Bytes) (path_indices : List Bool) : Bytes :=
  (path.zip path_indices).foldl
    (fun current pi => if pi.2 then hash_pair pi.1 current else hash_pair current pi.1)
    leaf

/-- The prefix of length i+1 of the zero-value table computed by merkle.rs
compute_zero_values: zeros[0] is all-zero, zeros[i] = hash_pair(zeros[i-1], zeros[i-1]). -/
def zeroValuesUpTo : Nat → List Bytes
  | 0 => [List.replicate 32 0]
  | i + 1 =>
    let prev := zeroValuesUpTo i
    prev ++ [hash_pair (prev.getLastD []) (prev.getLastD [])]

/-- compute_zero_values (merkle.rs lines 116-125). -/
def compute_zero_values : List Bytes := zeroValuesUpTo MERKLE_TREE_DEPTH

/-! ### groth16.rs -/

structure Groth16Proof where
  a : List Nat
  b : List Nat
  c : List Nat

structure PublicInputs where
  root : Bytes
  nullifier_hash : Bytes

structure VerificationKey where
  alpha_g1 : List Nat
  beta_g2 : List Nat
  gamma_g2 : List Nat
  delta_g2 : List Nat
  ic : List (List Nat)

/-! ### lib.rs -/

inductive MixerError where
  | InvalidDenomination
  | InvalidTimeDelay
  | MixerPaused
  | InvalidPool
  | TimeDelayNotMet
  | InsufficientFunds
  | InvalidCommitment
  | TreeFull
  | InvalidNullifier
  | NullifierAlreadyUsed
  | InvalidMerkleProof
  | NullifierRegistryFull
  | InvalidSecret
  | InsufficientAnonymitySet
  | TimeCalculationError
  | ArithmeticOverflow
  | PoolHasOutstandingDeposits
  | EncryptedDataTooLarge
deriving DecidableEq, Repr

instance {e a : Type} [DecidableEq e] [DecidableEq a] : DecidableEq (Except e a) :=
  fun x y =>
    match x, y with
    | .ok u, .ok v => if h : u = v then isTrue (by rw [h]) else isFalse (by simp [h])
    | .error u, .error v => if h : u = v then isTrue (by rw [h]) else isFalse (by simp [h])
    | .ok _, .error _ => isFalse (by simp)
    | .error _, .ok _ => isFalse (by simp)

/-- verify_groth16_proof (groth16.rs lines 41-59): the placeholder external
verifier; it ignores all three inputs and returns Ok(true). -/
def verify_groth16_proof (_proof : Groth16Proof) (_public_inputs : PublicInputs)
    (_verification_key : VerificationKey) : Except MixerError Bool :=
  .ok true

def MIN_TIME_DELAY : Int := 60

def FEE_BASIS_POINTS : Nat := 10

def BASIS_POINTS_DIVISOR : Nat := 10000

def DENOMINATION_01_SOL : Nat := 100000000

def DENOMINATION_1_SOL : Nat := 1000000000

def DENOMINATION_10_SOL : Nat := 10000000000

def DENOMINATION_100_SOL : Nat := 100000000000

def MAX_NULLIFIERS_PER_ACCOUNT : Nat := 100

def U64_MOD : Nat := 18446744073709551616

def I64_MIN : Int := -9223372036854775808

def I64_MAX : Int := 9223372036854775807

def zero32 : Bytes := List.replicate 32 0

def checked_mul_u64 (a b : Nat) : Option Nat :=
  if a * b < U64_MOD then some (a * b) else none

def checked_div_u64 (a b : Nat) : Option Nat :=
  if b = 0 then none else some (a / b)

def checked_sub_u64 (a b : Nat) : Option Nat :=
  if b ≤ a then some (a - b) else none

def checked_add_u64 (a b : Nat) : Option Nat :=
  if a + b < U64_MOD then some (a + b) else none

def checked_sub_i64 (a b : Int) : Option Int :=
  if I64_MIN ≤ a - b ∧ a - b ≤ I64_MAX then some (a - b) else none

structure MixerPool where
  denomination : Nat
  min_delay : Int
  total_deposits : Nat
  total_withdrawals : Nat
  merkle_root : Bytes
  next_leaf_index : Nat
  creation_timestamp : Int
deriving DecidableEq, Repr

structure NullifierRegistry where
  nullifiers : List Bytes
deriving DecidableEq, Repr

/-- NullifierRegistry::is_used (lib.rs lines 455-457). -/
def NullifierRegistry.is_used (reg : NullifierRegistry) (nullifier : Bytes) : Bool :=
  reg.nullifiers.contains nullifier

/-- NullifierRegistry::add_nullifier (lib.rs lines 459-467). -/
def NullifierRegistry.add_nullifier (reg : NullifierRegistry) (nullifier : Bytes) :
    Except MixerError NullifierRegistry :=
  if reg.nullifiers.length < MAX_NULLIFIERS_PER_ACCOUNT then
    .ok ⟨reg.nullifiers ++ [nullifier]⟩
  else
    .error .NullifierRegistryFull

/-- Repeated add_nullifier, first element first. -/
def NullifierRegistry.add_all (reg : NullifierRegistry) : List Bytes → Except MixerError NullifierRegistry
  | [] => .ok reg
  | n :: ns =>
    match reg.add_nullifier n with
    | .ok reg2 => reg2.add_all ns
    | .error e => .error e

/-- The state an instruction of the program can read and write: the config
pause flag, one pool with its registry, and the lamport balances of the pool,
the withdrawal recipient, the fee collector and the authority. Counters are
u32 and balances u64 in the source; they are modelled as Nat, and every write
that could overflow u64 goes through a checked_* operation, mirroring the
source. The u32 counter increments are unchecked in the source; in every
reachable state they stay far below 2^32 (deposits are bounded by the 2^20
tree capacity check and withdrawals by the registry capacity). -/
structure MixerState where
  paused : Bool
  pool : MixerPool
  registry : NullifierRegistry
  pool_balance : Nat
  recipient_balance : Nat
  fee_collector_balance : Nat
  authority_balance : Nat
deriving DecidableEq, Repr

/-- create_pool (lib.rs lines 48-80) combined with initialize_nullifier_registry
(lines 296-304): validates the denomination and the minimum delay and returns the
fresh pool state. rent is the lamport balance the runtime deposits into the new
pool account (rent exemption); it is not chosen by this program. -/
def create_pool (denomination : Nat) (min_delay : Int) (now : Int) (rent : Nat) :
    Except MixerError MixerState :=
  if ¬ (denomination = DENOMINATION_01_SOL ∨ denomination = DENOMINATION_1_SOL ∨
        denomination = DENOMINATION_10_SOL ∨ denomination = DENOMINATION_100_SOL) then
    .error .InvalidDenomination
  else if ¬ MIN_TIME_DELAY ≤ min_delay then
    .error .InvalidTimeDelay
  else
    .ok {
      paused := false,
      pool := {
        denomination := denomination,
        min_delay := min_delay,
        total_deposits := 0,
        total_withdrawals := 0,
        merkle_root := zero32,
        next_leaf_index := 0,
        creation_timestamp := now },
      registry := ⟨[]⟩,
      pool_balance := rent,
      recipient_balance := 0,
      fee_collector_balance := 0,
      authority_balance := 0 }

/-- deposit (lib.rs lines 85-160). The commitment record and the encrypted note
are write-once accounts that no later instruction reads, so only their guards
are modelled; the lamport transfer credits the pool with exactly the
denomination. -/
def deposit (s : MixerState) (commitment : Bytes) (encrypted_data : List Nat) :
    Except MixerError MixerState :=
  if s.paused then .error .MixerPaused
  else if commitment = zero32 then .error .InvalidCommitment
  else if ¬ encrypted_data.length ≤ 200 then .error .EncryptedDataTooLarge
  else if ¬ s.pool.next_leaf_index < 1048576 then .error .TreeFull
  else
    .ok { s with
      pool_balance := s.pool_balance + s.pool.denomination,
      pool := { s.pool with
        next_leaf_index := s.pool.next_leaf_index + 1,
        total_deposits := s.pool.total_deposits + 1 } }

/-- The fee computation inside withdraw (lib.rs lines 231-240):
fee = denomination checked_mul FEE_BASIS_POINTS checked_div BASIS_POINTS_DIVISOR,
net = denomination checked_sub fee, every failure mapped to ArithmeticOverflow. -/
def compute_fee_split (withdrawal_amount : Nat) : Except MixerError (Nat × Nat) :=
  match checked_mul_u64 withdrawal_amount FEE_BASIS_POINTS with
  | none => .error .ArithmeticOverflow
  | some x =>
    match checked_div_u64 x BASIS_POINTS_DIVISOR with
    | none => .error .ArithmeticOverflow
    | some fee_amount =>
      match checked_sub_u64 withdrawal_amount fee_amount with
      | none => .error .ArithmeticOverflow
      | some net_withdrawal => .ok (fee_amount, net_withdrawal)

/-- withdraw (lib.rs lines 164-293), with the source order of checks: pause,
zero nullifier, zero secret, used nullifier, Merkle proof, anonymity set,
time delay, fee arithmetic, balance check, the two transfers, add_nullifier,
counter update. -/
def withdraw (s : MixerState) (nullifier secret merkle_root : Bytes)
    (merkle_proof : List Bytes) (path_indices : List Bool) (now : Int) :
    Except MixerError MixerState :=
  if s.paused then .error .MixerPaused
  else if nullifier = zero32 then .error .InvalidNullifier
  else if secret = zero32 then .error .InvalidSecret
  else if s.registry.is_used nullifier then .error .NullifierAlreadyUsed
  else
    let commitment := compute_commitment secret nullifier
    if ¬ verify_merkle_proof commitment merkle_proof path_indices merkle_root then
      .error .InvalidMerkleProof
    else if ¬ 2 ≤ s.pool.total_deposits then .error .InsufficientAnonymitySet
    else
      match checked_sub_i64 now s.pool.creation_timestamp with
      | none => .error .TimeCalculationError
      | some pool_age =>
        if ¬ s.pool.min_delay ≤ pool_age then .error .TimeDelayNotMet
        else
          match compute_fee_split s.pool.denomination with
          | .error e => .error e
          | .ok (fee_amount, net_withdrawal) =>
            if ¬ s.pool.denomination ≤ s.pool_balance then .error .InsufficientFunds
            else
              match checked_sub_u64 s.pool_balance net_withdrawal with
              | none => .error .InsufficientFunds
              | some pb1 =>
                match checked_add_u64 s.recipient_balance net_withdrawal with
                | none => .error .ArithmeticOverflow
                | some rb =>
                  match checked_sub_u64 pb1 fee_amount with
                  | none => .error .InsufficientFunds
                  | some pb2 =>
                    match checked_add_u64 s.fee_collector_balance fee_amount with
                    | none => .error .ArithmeticOverflow
                    | some fcb =>
                      match s.registry.add_nullifier nullifier with
                      | .error e => .error e
                      | .ok reg2 =>
                        .ok { s with
                          pool_balance := pb2,
                          recipient_balance := rb,
                          fee_collector_balance := fcb,
                          registry := reg2,
                          pool := { s.pool with
                            total_withdrawals := s.pool.total_withdrawals + 1 } }

/-- pause (lib.rs lines 307-313). -/
def pause (s : MixerState) : Except MixerError MixerState :=
  .ok { s with paused := true }

/-- unpause (lib.rs lines 316-322). -/
def unpause (s : MixerState) : Except MixerError MixerState :=
  .ok { s with paused := false }

/-- close_pool (lib.rs lines 350-369): guarded sweep of the pool lamports. -/
def close_pool (s : MixerState) : Except MixerError MixerState :=
  if ¬ s.pool.total_deposits = s.pool.total_withdrawals then
    .error .PoolHasOutstandingDeposits
  else
    .ok { s with
      pool_balance := 0,
      authority_balance := s.authority_balance + s.pool_balance }

/-- force_close_account (lib.rs lines 372-383) applied to the pool account:
unguarded sweep of the pool lamports to the authority. -/
def force_close_pool (s : MixerState) : Except MixerError MixerState :=
  .ok { s with
    pool_balance := 0,
    authority_balance := s.authority_balance + s.pool_balance }

/-- force_close_account (lib.rs lines 372-383) applied to the pool's registry
account, followed — after the runtime purges the zero-lamport account at the
end of that transaction — by initialize_nullifier_registry (lib.rs lines
296-304), which re-creates the registry with an empty Vec. ForceCloseAccount
takes any mutable program-owned account, so the registry qualifies, gated only
by the authority's signature; a standalone initialize_nullifier_registry on a
live registry is an Anchor init on an existing account and fails with no state
change, so it needs no transition of its own. The registry account's own rent
lamports are not tracked. In the window between the two instructions the
registry does not exist and every withdraw fails at account deserialization
with no state change, so the two are modelled as one combined transition. -/
def reset_registry (s : MixerState) : Except MixerError MixerState :=
  .ok { s with registry := ⟨[]⟩ }

/-- One user-visible operation against a pool and its registry: deposit,
withdraw, the pause/unpause switches, close_pool, force_close_account applied
to the pool account (force_close_pool), and force_close_account applied to
the registry account followed by its re-initialization (reset_registry). -/
inductive Op where
  | deposit (commitment : Bytes) (encrypted_data : List Nat)
  | withdraw (nullifier secret merkle_root : Bytes) (merkle_proof : List Bytes)
      (path_indices : List Bool) (now : Int)
  | pause
  | unpause
  | close_pool
  | force_close_pool
  | reset_registry
deriving DecidableEq

def step (s : MixerState) : Op → Except MixerError MixerState
  | .deposit c ed => deposit s c ed
  | .withdraw n sec root proof idx now => withdraw s n sec root proof idx now
  | .pause => pause s
  | .unpause => unpause s
  | .close_pool => close_pool s
  | .force_close_pool => force_close_pool s
  | .reset_registry => reset_registry s

/-- The state the ledger commits after running an operation: a failed
instruction aborts its transaction and every one of its writes is discarded. -/
def applyOp (s : MixerState) (op : Op) : MixerState :=
  match step s op with
  | .ok s2 => s2
  | .error _ => s

def execOps (s : MixerState) (ops : List Op) : MixerState := ops.foldl applyOp s

/-- The committed state of a single instruction result. -/
def applyExcept (s : MixerState) (r : Except MixerError MixerState) : MixerState :=
  match r with
  | .ok s2 => s2
  | .error _ => s

/-- States reachable from pool creation (with runtime-paid rent) by any
sequence of successful deposit, withdraw and admin operations; failed
operations leave the state unchanged and need no transition. -/
inductive Reachable (rent : Nat) : MixerState → Prop where
  | created (denomination : Nat) (min_delay now : Int) (s : MixerState) :
      create_pool denomination min_delay now rent = .ok s → Reachable rent s
  | stepped (s : MixerState) (op : Op) (s2 : MixerState) :
      Reachable rent s → step s op = .ok s2 → Reachable rent s2

/-! ### Concrete witness data

wSecret/wNullifier are a sample secret and nullifier; mr0 is their commitment
and mr1..mr20 the successive fold values of the Merkle proof whose siblings are
all zv0 with all direction bits false, so mr20 is the Merkle root of that
proof. The byte values are fixed here and proved correct against sha256 below. -/

def wSecret : Bytes := List.replicate 32 1

def wNullifier : Bytes := List.replicate 32 2

def mr0 : Bytes :=
  [248, 24, 175, 211, 122, 109, 195, 188, 146, 251, 68, 115, 16, 17, 39, 112, 6, 219, 78, 250, 110, 144, 35, 205, 116, 104, 192, 35, 53, 210, 42, 77]

def mr1 : Bytes :=
  [180, 115, 218, 209, 71, 46, 210, 129, 209, 226, 207, 236, 172, 102, 175, 159, 252, 4, 248, 55, 45, 15, 30, 152, 95, 28, 59, 96, 161, 172, 138, 38]

def mr2 : Bytes :=
  [35, 3, 22, 180, 186, 250, 43, 99, 75, 84, 80, 165, 65, 46, 2, 33, 113, 211, 134, 4, 46, 250, 49, 109, 127, 111, 186, 178, 81, 30, 219, 253]

def mr3 : Bytes :=
  [34, 11, 143, 54, 218, 63, 164, 210, 253, 83, 108, 145, 110, 119, 233, 37, 58, 161, 50, 55, 101, 65, 122, 233, 239, 16, 74, 92, 235, 33, 238, 50]

def mr4 : Bytes :=
  [164, 83, 172, 12, 98, 238, 45, 122, 88, 191, 195, 16, 114, 3, 101, 99, 156, 133, 30, 255, 20, 253, 30, 104, 153, 114, 211, 145, 68, 128, 221, 135]

def mr5 : Bytes :=
  [201, 107, 170, 254, 206, 240, 130, 237, 83, 41, 120, 200, 120, 65, 74, 238, 10, 62, 238, 99, 7, 24, 66, 183, 62, 63, 183, 90, 23, 67, 248, 29]

def mr6 : Bytes :=
  [218, 68, 216, 79, 78, 191, 165, 173, 237, 125, 165, 247, 130, 209, 173, 33, 130, 113, 73, 183, 85, 102, 147, 66, 77, 240, 185, 206, 68, 240, 251, 176]

def mr7 : Bytes :=
  [142, 214, 198, 175, 105, 209, 4, 84, 0, 129, 24, 234, 202, 202, 246, 153, 177, 182, 175, 114, 79, 189, 185, 26, 127, 211, 164, 61, 255, 243, 113, 220]

def mr8 : Bytes :=
  [120, 207, 211, 11, 9, 234, 252, 75, 90, 94, 229, 232, 180, 122, 56, 97, 246, 242, 21, 150, 36, 132, 244, 145, 245, 201, 0, 52, 64, 240, 121, 171]

def mr9 : Bytes :=
  [157, 18, 138, 214, 235, 78, 214, 70, 235, 140, 243, 19, 134, 192, 189, 242, 122, 26, 79, 133, 142, 225, 165, 34, 249, 70, 76, 151, 206, 49, 144, 43]

def mr10 : Bytes :=
  [135, 140, 167, 179, 112, 26, 59, 97, 93, 50, 160, 85, 248, 175, 117, 15, 79, 220, 47, 228, 195, 162, 7, 208, 82, 199, 192, 128, 143, 236, 191, 48]

def mr11 : Bytes :=
  [211, 76, 58, 204, 92, 215, 154, 77, 227, 116, 67, 249, 11, 15, 240, 141, 187, 214, 28, 59, 226, 146, 88, 241, 246, 159, 253, 69, 30, 81, 101, 100]

def mr12 : Bytes :=
  [135, 170, 200, 125, 140, 178, 22, 112, 193, 207, 131, 217, 241, 64, 63, 47, 236, 124, 33, 151, 50, 159, 28, 157, 165, 26, 89, 180, 11, 165, 240, 155]

def mr13 : Bytes :=
  [5, 226, 252, 94, 1, 23, 244, 2, 37, 162, 71, 214, 254, 63, 16, 175, 192, 87, 122, 145, 155, 133, 11, 144, 228, 105, 243, 23, 53, 174, 226, 85]

def mr14 : Bytes :=
  [241, 128, 197, 97, 92, 160, 211, 246, 10, 15, 234, 70, 114, 133, 213, 62, 177, 82, 34, 141, 66, 218, 228, 187, 238, 141, 83, 20, 39, 173, 150, 16]

def mr15 : Bytes :=
  [105, 214, 105, 164, 185, 165, 116, 68, 35, 29, 93, 44, 140, 222, 238, 175, 221, 101, 247, 52, 47, 22, 43, 114, 157, 79, 31, 94, 66, 249, 184, 79]

def mr16 : Bytes :=
  [223, 240, 234, 170, 242, 195, 94, 133, 240, 156, 52, 254, 208, 230, 132, 57, 208, 54, 14, 196, 80, 43, 108, 10, 66, 207, 240, 34, 222, 213, 40, 99]

def mr17 : Bytes :=
  [248, 39, 0, 104, 125, 206, 36, 200, 15, 164, 148, 216, 9, 237, 108, 93, 6, 173, 223, 237, 205, 58, 120, 52, 197, 235, 224, 240, 149, 98, 88, 189]

def mr18 : Bytes :=
  [9, 250, 20, 19, 228, 254, 87, 187, 145, 227, 179, 146, 176, 107, 95, 57, 56, 183, 124, 95, 114, 45, 114, 42, 84, 8, 101, 208, 13, 227, 72, 243]

def mr19 : Bytes :=
  [85, 138, 18, 89, 79, 127, 158, 242, 151, 4, 245, 105, 214, 204, 8, 155, 248, 144, 160, 232, 1, 83, 188, 14, 191, 45, 50, 84, 145, 251, 48, 47]

def mr20 : Bytes :=
  [54, 114, 169, 23, 143, 40, 63, 190, 97, 21, 216, 80, 248, 72, 4, 186, 98, 106, 167, 175, 227, 70, 199, 237, 116, 31, 64, 224, 236, 44, 168, 162]

def wPath : List Bytes := List.replicate 20 zv0

def wIdx : List Bool := List.replicate 20 false

/-- A pool state in which the concrete withdrawal below passes every gate:
not paused, two deposits already made (rent 1000 plus two denominations of
0.1 SOL in the pool), registry empty, pool one hundred seconds old. -/
def wState : MixerState :=
  { paused := false,
    pool := {
      denomination := 100000000,
      min_delay := 60,
      total_deposits := 2,
      total_withdrawals := 0,
      merkle_root := zero32,
      next_leaf_index := 2,
      creation_timestamp := 0 },
    registry := ⟨[]⟩,
    pool_balance := 200001000,
    recipient_balance := 0,
    fee_collector_balance := 0,
    authority_balance := 0 }

/-- The state after the successful concrete withdrawal from wState:
fee = 100000000 * 10 / 10000 = 100000, net = 99900000. -/
def wPost : MixerState :=
  { wState with
    pool_balance := 100001000,
    recipient_balance := 99900000,
    fee_collector_balance := 100000,
    registry := ⟨[wNullifier]⟩,
    pool := { wState.pool with total_withdrawals := 1 } }

/-- wState with creation timestamp 1, so that the i64 subtraction
now - creation_timestamp overflows for now = I64_MIN. -/
def c8State : MixerState :=
  { wState with pool := { wState.pool with creation_timestamp := 1 } }

/-- A pool state with one deposit and no withdrawals. -/
def c6State : MixerState :=
  { wState with
    pool := { wState.pool with total_deposits := 1, next_leaf_index := 1 },
    pool_balance := 100001000 }

/-- A withdraw-gate state whose denomination is so large that
denomination * FEE_BASIS_POINTS overflows u64. -/
def c5State : MixerState :=
  { wState with
    pool := { wState.pool with denomination := 9223372036854775808 },
    pool_balance := 9223372036854775808 }

/-- The state create_pool returns for the 0.1 SOL denomination with delay 60,
creation time 0 and rent 1000. -/
def initSt : MixerState :=
  { paused := false,
    pool := {
      denomination := 100000000,
      min_delay := 60,
      total_deposits := 0,
      total_withdrawals := 0,
      merkle_root := zero32,
      next_leaf_index := 0,
      creation_timestamp := 0 },
    registry := ⟨[]⟩,
    pool_balance := 1000,
    recipient_balance := 0,
    fee_collector_balance := 0,
    authority_balance := 0 }

/-- One hundred distinct single-byte nullifiers. -/
def c7List : List Bytes := (List.range 100).map (fun i => [i])


end Nullifier

namespace Nullifier

/-! ### Per-level hash facts, each a single SHA-256 evaluation -/

theorem hz1 : hash_pair zv0 zv0 = zv1 := by decide

theorem hz2 : hash_pair zv1 zv1 = zv2 := by decide

theorem hz3 : hash_pair zv2 zv2 = zv3 := by decide

theorem hz4 : hash_pair zv3 zv3 = zv4 := by decide

theorem hz5 : hash_pair zv4 zv4 = zv5 := by decide

theorem hz6 : hash_pair zv5 zv5 = zv6 := by decide

theorem hz7 : hash_pair zv6 zv6 = zv7 := by decide

theorem hz8 : hash_pair zv7 zv7 = zv8 := by decide

theorem hz9 : hash_pair zv8 zv8 = zv9 := by decide

theorem hz10 : hash_pair zv9 zv9 = zv10 := by decide

theorem hz11 : hash_pair zv10 zv10 = zv11 := by decide

theorem hz12 : hash_pair zv11 zv11 = zv12 := by decide

theorem hz13 : hash_pair zv12 zv12 = zv13 := by decide

theorem hz14 : hash_pair zv13 zv13 = zv14 := by decide

theorem hz15 : hash_pair zv14 zv14 = zv15 := by decide

theorem hz16 : hash_pair zv15 zv15 = zv16 := by decide

theorem hz17 : hash_pair zv16 zv16 = zv17 := by decide

theorem hz18 : hash_pair zv17 zv17 = zv18 := by decide

theorem hz19 : hash_pair zv18 zv18 = zv19 := by decide

theorem hz20 : hash_pair zv19 zv19 = zv20 := by decide

theorem hmc : compute_commitment wSecret wNullifier = mr0 := by decide

theorem hm1 : hash_pair mr0 zv0 = mr1 := by decide

theorem hm2 : hash_pair mr1 zv0 = mr2 := by decide

theorem hm3 : hash_pair mr2 zv0 = mr3 := by decide

theorem hm4 : hash_pair mr3 zv0 = mr4 := by decide

theorem hm5 : hash_pair mr4 zv0 = mr5 := by decide

theorem hm6 : hash_pair mr5 zv0 = mr6 := by decide

theorem hm7 : hash_pair mr6 zv0 = mr7 := by decide

theorem hm8 : hash_pair mr7 zv0 = mr8 := by decide

theorem hm9 : hash_pair mr8 zv0 = mr9 := by decide

theorem hm10 : hash_pair mr9 zv0 = mr10 := by decide

theorem hm11 : hash_pair mr10 zv0 = mr11 := by decide

theorem hm12 : hash_pair mr11 zv0 = mr12 := by decide

theorem hm13 : hash_pair mr12 zv0 = mr13 := by decide

theorem hm14 : hash_pair mr13 zv0 = mr14 := by decide

theorem hm15 : hash_pair mr14 zv0 = mr15 := by decide

theorem hm16 : hash_pair mr15 zv0 = mr16 := by decide

theorem hm17 : hash_pair mr16 zv0 = mr17 := by decide

theorem hm18 : hash_pair mr17 zv0 = mr18 := by decide

theorem hm19 : hash_pair mr18 zv0 = mr19 := by decide

theorem hm20 : hash_pair mr19 zv0 = mr20 := by decide

/-! ### Structure of the Merkle fold and the zero-value computation -/

theorem zeroValuesUpTo_succ (i : Nat) :
    zeroValuesUpTo (i + 1) =
      zeroValuesUpTo i ++
        [hash_pair ((zeroValuesUpTo i).getLastD []) ((zeroValuesUpTo i).getLastD [])] := rfl

theorem verify_eq_compute (leaf : Bytes) (path : List Bytes) (idx : List Bool) (root : Bytes) :
    verify_merkle_proof leaf path idx root = true ↔ compute_merkle_root leaf path idx = root := by
  simp [verify_merkle_proof, compute_merkle_root]

theorem compute_merkle_root_cons (leaf p : Bytes) (b : Bool) (ps : List Bytes) (bs : List Bool) :
    compute_merkle_root leaf (p :: ps) (b :: bs) =
      compute_merkle_root (if b then hash_pair p leaf else hash_pair leaf p) ps bs := rfl

theorem cmr_false_step (cur : Bytes) (k : Nat) :
    compute_merkle_root cur (List.replicate (k + 1) zv0) (List.replicate (k + 1) false) =
      compute_merkle_root (hash_pair cur zv0) (List.replicate k zv0) (List.replicate k false) := rfl

theorem zvUpTo_eq_1 : zeroValuesUpTo 1 = [zv0, zv1] := by
  show [zv0] ++ [hash_pair ([zv0].getLastD []) ([zv0].getLastD [])] = [zv0, zv1]
  show [zv0] ++ [hash_pair zv0 zv0] = [zv0, zv1]
  rw [hz1]
  rfl

theorem zvUpTo_eq_2 : zeroValuesUpTo 2 = [zv0, zv1, zv2] := by
  show zeroValuesUpTo 1 ++ [hash_pair ((zeroValuesUpTo 1).getLastD []) ((zeroValuesUpTo 1).getLastD [])] = [zv0, zv1, zv2]
  rw [zvUpTo_eq_1]
  show [zv0, zv1] ++ [hash_pair zv1 zv1] = [zv0, zv1, zv2]
  rw [hz2]
  rfl

theorem zvUpTo_eq_3 : zeroValuesUpTo 3 = [zv0, zv1, zv2, zv3] := by
  show zeroValuesUpTo 2 ++ [hash_pair ((zeroValuesUpTo 2).getLastD []) ((zeroValuesUpTo 2).getLastD [])] = [zv0, zv1, zv2, zv3]
  rw [zvUpTo_eq_2]
  show [zv0, zv1, zv2] ++ [hash_pair zv2 zv2] = [zv0, zv1, zv2, zv3]
  rw [hz3]
  rfl

theorem zvUpTo_eq_4 : zeroValuesUpTo 4 = [zv0, zv1, zv2, zv3, zv4] := by
  show zeroValuesUpTo 3 ++ [hash_pair ((zeroValuesUpTo 3).getLastD []) ((zeroValuesUpTo 3).getLastD [])] = [zv0, zv1, zv2, zv3, zv4]
  rw [zvUpTo_eq_3]
  show [zv0, zv1, zv2, zv3] ++ [hash_pair zv3 zv3] = [zv0, zv1, zv2, zv3, zv4]
  rw [hz4]
  rfl

theorem zvUpTo_eq_5 : zeroValuesUpTo 5 = [zv0, zv1, zv2, zv3, zv4, zv5] := by
  show zeroValuesUpTo 4 ++ [hash_pair ((zeroValuesUpTo 4).getLastD []) ((zeroValuesUpTo 4).getLastD [])] = [zv0, zv1, zv2, zv3, zv4, zv5]
  rw [zvUpTo_eq_4]
  show [zv0, zv1, zv2, zv3, zv4] ++ [hash_pair zv4 zv4] = [zv0, zv1, zv2, zv3, zv4, zv5]
  rw [hz5]
  rfl

theorem zvUpTo_eq_6 : zeroValuesUpTo 6 = [zv0, zv1, zv2, zv3, zv4, zv5, zv6] := by
  show zeroValuesUpTo 5 ++ [hash_pair ((zeroValuesUpTo 5).getLastD []) ((zeroValuesUpTo 5).getLastD [])] = [zv0, zv1, zv2, zv3, zv4, zv5, zv6]
  rw [zvUpTo_eq_5]
  show [zv0, zv1, zv2, zv3, zv4, zv5] ++ [hash_pair zv5 zv5] = [zv0, zv1, zv2, zv3, zv4, zv5, zv6]
  rw [hz6]
  rfl

theorem zvUpTo_eq_7 : zeroValuesUpTo 7 = [zv0, zv1, zv2, zv3, zv4, zv5, zv6, zv7] := by
  show zeroValuesUpTo 6 ++ [hash_pair ((zeroValuesUpTo 6).getLastD []) ((zeroValuesUpTo 6).getLastD [])] = [zv0, zv1, zv2, zv3, zv4, zv5, zv6, zv7]
  rw [zvUpTo_eq_6]
  show [zv0, zv1, zv2, zv3, zv4, zv5, zv6] ++ [hash_pair zv6 zv6] = [zv0, zv1, zv2, zv3, zv4, zv5, zv6, zv7]
  rw [hz7]
  rfl

theorem zvUpTo_eq_8 : zeroValuesUpTo 8 = [zv0, zv1, zv2, zv3, zv4, zv5, zv6, zv7, zv8] := by
  show zeroValuesUpTo 7 ++ [hash_pair ((zeroValuesUpTo 7).getLastD []) ((zeroValuesUpTo 7).getLastD [])] = [zv0, zv1, zv2, zv3, zv4, zv5, zv6, zv7, zv8]
  rw [zvUpTo_eq_7]
  show [zv0, zv1, zv2, zv3, zv4, zv5, zv6, zv7] ++ [hash_pair zv7 zv7] = [zv0, zv1, zv2, zv3, zv4, zv5, zv6, zv7, zv8]
  rw [hz8]
  rfl

theorem zvUpTo_eq_9 : zeroValuesUpTo 9 = [zv0, zv1, zv2, zv3, zv4, zv5, zv6, zv7, zv8, zv9] := by
  show zeroValuesUpTo 8 ++ [hash_pair ((zeroValuesUpTo 8).getLastD []) ((zeroValuesUpTo 8).getLastD [])] = [zv0, zv1, zv2, zv3, zv4, zv5, zv6, zv7, zv8, zv9]
  rw [zvUpTo_eq_8]
  show [zv0, zv1, zv2, zv3, zv4, zv5, zv6, zv7, zv8] ++ [hash_pair zv8 zv8] = [zv0, zv1, zv2, zv3, zv4, zv5, zv6, zv7, zv8, zv9]
  rw [hz9]
  rfl

theorem zvUpTo_eq_10 : zeroValuesUpTo 10 = [zv0, zv1, zv2, zv3, zv4, zv5, zv6, zv7, zv8, zv9, zv10] := by
  show zeroValuesUpTo 9 ++ [hash_pair ((zeroValuesUpTo 9).getLastD []) ((zeroValuesUpTo 9).getLastD [])] = [zv0, zv1, zv2, zv3, zv4, zv5, zv6, zv7, zv8, zv9, zv10]
  rw [zvUpTo_eq_9]
  show [zv0, zv1, zv2, zv3, zv4, zv5, zv6, zv7, zv8, zv9] ++ [hash_pair zv9 zv9] = [zv0, zv1, zv2, zv3, zv4, zv5, zv6, zv7, zv8, zv9, zv10]
  rw [hz10]
  rfl

theorem zvUpTo_eq_11 : zeroValuesUpTo 11 = [zv0, zv1, zv2, zv3, zv4, zv5, zv6, zv7, zv8, zv9, zv10, zv11] := by
  show zeroValuesUpTo 10 ++ [hash_pair ((zeroValuesUpTo 10).getLastD []) ((zeroValuesUpTo 10).getLastD [])] = [zv0, zv1, zv2, zv3, zv4, zv5, zv6, zv7, zv8, zv9, zv10, zv11]
  rw [zvUpTo_eq_10]
  show [zv0, zv1, zv2, zv3, zv4, zv5, zv6, zv7, zv8, zv9, zv10] ++ [hash_pair zv10 zv10] = [zv0, zv1, zv2, zv3, zv4, zv5, zv6, zv7, zv8, zv9, zv10, zv11]
  rw [hz11]
  rfl

theorem zvUpTo_eq_12 : zeroValuesUpTo 12 = [zv0, zv1, zv2, zv3, zv4, zv5, zv6, zv7, zv8, zv9, zv10, zv11, zv12] := by
  show zeroValuesUpTo 11 ++ [hash_pair ((zeroValuesUpTo 11).getLastD []) ((zeroValuesUpTo 11).getLastD [])] = [zv0, zv1, zv2, zv3, zv4, zv5, zv6, zv7, zv8, zv9, zv10, zv11, zv12]
  rw [zvUpTo_eq_11]
  show [zv0, zv1, zv2, zv3, zv4, zv5, zv6, zv7, zv8, zv9, zv10, zv11] ++ [hash_pair zv11 zv11] = [zv0, zv1, zv2, zv3, zv4, zv5, zv6, zv7, zv8, zv9, zv10, zv11, zv12]
  rw [hz12]
  rfl

theorem zvUpTo_eq_13 : zeroValuesUpTo 13 = [zv0, zv1, zv2, zv3, zv4, zv5, zv6, zv7, zv8, zv9, zv10, zv11, zv12, zv13] := by
  show zeroValuesUpTo 12 ++ [hash_pair ((zeroValuesUpTo 12).getLastD []) ((zeroValuesUpTo 12).getLastD [])] = [zv0, zv1, zv2, zv3, zv4, zv5, zv6, zv7, zv8, zv9, zv10, zv11, zv12, zv13]
  rw [zvUpTo_eq_12]
  show [zv0, zv1, zv2, zv3, zv4, zv5, zv6, zv7, zv8, zv9, zv10, zv11, zv12] ++ [hash_pair zv12 zv12] = [zv0, zv1, zv2, zv3, zv4, zv5, zv6, zv7, zv8, zv9, zv10, zv11, zv12, zv13]
  rw [hz13]
  rfl

theorem zvUpTo_eq_14 : zeroValuesUpTo 14 = [zv0, zv1, zv2, zv3, zv4, zv5, zv6, zv7, zv8, zv9, zv10, zv11, zv12, zv13, zv14] := by
  show zeroValuesUpTo 13 ++ [hash_pair ((zeroValuesUpTo 13).getLastD []) ((zeroValuesUpTo 13).getLastD [])] = [zv0, zv1, zv2, zv3, zv4, zv5, zv6, zv7, zv8, zv9, zv10, zv11, zv12, zv13, zv14]
  rw [zvUpTo_eq_13]
  show [zv0, zv1, zv2, zv3, zv4, zv5, zv6, zv7, zv8, zv9, zv10, zv11, zv12, zv13] ++ [hash_pair zv13 zv13] = [zv0, zv1, zv2, zv3, zv4, zv5, zv6, zv7, zv8, zv9, zv10, zv11, zv12, zv13, zv14]
  rw [hz14]
  rfl

theorem zvUpTo_eq_15 : zeroValuesUpTo 15 = [zv0, zv1, zv2, zv3, zv4, zv5, zv6, zv7, zv8, zv9, zv10, zv11, zv12, zv13, zv14, zv15] := by
  show zeroValuesUpTo 14 ++ [hash_pair ((zeroValuesUpTo 14).getLastD []) ((zeroValuesUpTo 14).getLastD [])] = [zv0, zv1, zv2, zv3, zv4, zv5, zv6, zv7, zv8, zv9, zv10, zv11, zv12, zv13, zv14, zv15]
  rw [zvUpTo_eq_14]
  show [zv0, zv1, zv2, zv3, zv4, zv5, zv6, zv7, zv8, zv9, zv10, zv11, zv12, zv13, zv14] ++ [hash_pair zv14 zv14] = [zv0, zv1, zv2, zv3, zv4, zv5, zv6, zv7, zv8, zv9, zv10, zv11, zv12, zv13, zv14, zv15]
  rw [hz15]
  rfl

theorem zvUpTo_eq_16 : zeroValuesUpTo 16 = [zv0, zv1, zv2, zv3, zv4, zv5, zv6, zv7, zv8, zv9, zv10, zv11, zv12, zv13, zv14, zv15, zv16] := by
  show zeroValuesUpTo 15 ++ [hash_pair ((zeroValuesUpTo 15).getLastD []) ((zeroValuesUpTo 15).getLastD [])] = [zv0, zv1, zv2, zv3, zv4, zv5, zv6, zv7, zv8, zv9, zv10, zv11, zv12, zv13, zv14, zv15, zv16]
  rw [zvUpTo_eq_15]
  show [zv0, zv1, zv2, zv3, zv4, zv5, zv6, zv7, zv8, zv9, zv10, zv11, zv12, zv13, zv14, zv15] ++ [hash_pair zv15 zv15] = [zv0, zv1, zv2, zv3, zv4, zv5, zv6, zv7, zv8, zv9, zv10, zv11, zv12, zv13, zv14, zv15, zv16]
  rw [hz16]
  rfl

theorem zvUpTo_eq_17 : zeroValuesUpTo 17 = [zv0, zv1, zv2, zv3, zv4, zv5, zv6, zv7, zv8, zv9, zv10, zv11, zv12, zv13, zv14, zv15, zv16, zv17] := by
  show zeroValuesUpTo 16 ++ [hash_pair ((zeroValuesUpTo 16).getLastD []) ((zeroValuesUpTo 16).getLastD [])] = [zv0, zv1, zv2, zv3, zv4, zv5, zv6, zv7, zv8, zv9, zv10, zv11, zv12, zv13, zv14, zv15, zv16, zv17]
  rw [zvUpTo_eq_16]
  show [zv0, zv1, zv2, zv3, zv4, zv5, zv6, zv7, zv8, zv9, zv10, zv11, zv12, zv13, zv14, zv15, zv16] ++ [hash_pair zv16 zv16] = [zv0, zv1, zv2, zv3, zv4, zv5, zv6, zv7, zv8, zv9, zv10, zv11, zv12, zv13, zv14, zv15, zv16, zv17]
  rw [hz17]
  rfl

theorem zvUpTo_eq_18 : zeroValuesUpTo 18 = [zv0, zv1, zv2, zv3, zv4, zv5, zv6, zv7, zv8, zv9, zv10, zv11, zv12, zv13, zv14, zv15, zv16, zv17, zv18] := by
  show zeroValuesUpTo 17 ++ [hash_pair ((zeroValuesUpTo 17).getLastD []) ((zeroValuesUpTo 17).getLastD [])] = [zv0, zv1, zv2, zv3, zv4, zv5, zv6, zv7, zv8, zv9, zv10, zv11, zv12, zv13, zv14, zv15, zv16, zv17, zv18]
  rw [zvUpTo_eq_17]
  show [zv0, zv1, zv2, zv3, zv4, zv5, zv6, zv7, zv8, zv9, zv10, zv11, zv12, zv13, zv14, zv15, zv16, zv17] ++ [hash_pair zv17 zv17] = [zv0, zv1, zv2, zv3, zv4, zv5, zv6, zv7, zv8, zv9, zv10, zv11, zv12, zv13, zv14, zv15, zv16, zv17, zv18]
  rw [hz18]
  rfl

theorem zvUpTo_eq_19 : zeroValuesUpTo 19 = [zv0, zv1, zv2, zv3, zv4, zv5, zv6, zv7, zv8, zv9, zv10, zv11, zv12, zv13, zv14, zv15, zv16, zv17, zv18, zv19] := by
  show zeroValuesUpTo 18 ++ [hash_pair ((zeroValuesUpTo 18).getLastD []) ((zeroValuesUpTo 18).getLastD [])] = [zv0, zv1, zv2, zv3, zv4, zv5, zv6, zv7, zv8, zv9, zv10, zv11, zv12, zv13, zv14, zv15, zv16, zv17, zv18, zv19]
  rw [zvUpTo_eq_18]
  show [zv0, zv1, zv2, zv3, zv4, zv5, zv6, zv7, zv8, zv9, zv10, zv11, zv12, zv13, zv14, zv15, zv16, zv17, zv18] ++ [hash_pair zv18 zv18] = [zv0, zv1, zv2, zv3, zv4, zv5, zv6, zv7, zv8, zv9, zv10, zv11, zv12, zv13, zv14, zv15, zv16, zv17, zv18, zv19]
  rw [hz19]
  rfl

theorem zvUpTo_eq_20 : zeroValuesUpTo 20 = [zv0, zv1, zv2, zv3, zv4, zv5, zv6, zv7, zv8, zv9, zv10, zv11, zv12, zv13, zv14, zv15, zv16, zv17, zv18, zv19, zv20] := by
  show zeroValuesUpTo 19 ++ [hash_pair ((zeroValuesUpTo 19).getLastD []) ((zeroValuesUpTo 19).getLastD [])] = [zv0, zv1, zv2, zv3, zv4, zv5, zv6, zv7, zv8, zv9, zv10, zv11, zv12, zv13, zv14, zv15, zv16, zv17, zv18, zv19, zv20]
  rw [zvUpTo_eq_19]
  show [zv0, zv1, zv2, zv3, zv4, zv5, zv6, zv7, zv8, zv9, zv10, zv11, zv12, zv13, zv14, zv15, zv16, zv17, zv18, zv19] ++ [hash_pair zv19 zv19] = [zv0, zv1, zv2, zv3, zv4, zv5, zv6, zv7, zv8, zv9, zv10, zv11, zv12, zv13, zv14, zv15, zv16, zv17, zv18, zv19, zv20]
  rw [hz20]
  rfl

theorem compute_zero_values_eq : compute_zero_values = ZERO_VALUES := zvUpTo_eq_20

theorem wChain : compute_merkle_root mr0 wPath wIdx = mr20 := by
  show compute_merkle_root mr0 (List.replicate (19 + 1) zv0) (List.replicate (19 + 1) false) = mr20
  rw [cmr_false_step mr0 19, hm1]
  show compute_merkle_root mr1 (List.replicate (18 + 1) zv0) (List.replicate (18 + 1) false) = mr20
  rw [cmr_false_step mr1 18, hm2]
  show compute_merkle_root mr2 (List.replicate (17 + 1) zv0) (List.replicate (17 + 1) false) = mr20
  rw [cmr_false_step mr2 17, hm3]
  show compute_merkle_root mr3 (List.replicate (16 + 1) zv0) (List.replicate (16 + 1) false) = mr20
  rw [cmr_false_step mr3 16, hm4]
  show compute_merkle_root mr4 (List.replicate (15 + 1) zv0) (List.replicate (15 + 1) false) = mr20
  rw [cmr_false_step mr4 15, hm5]
  show compute_merkle_root mr5 (List.replicate (14 + 1) zv0) (List.replicate (14 + 1) false) = mr20
  rw [cmr_false_step mr5 14, hm6]
  show compute_merkle_root mr6 (List.replicate (13 + 1) zv0) (List.replicate (13 + 1) false) = mr20
  rw [cmr_false_step mr6 13, hm7]
  show compute_merkle_root mr7 (List.replicate (12 + 1) zv0) (List.replicate (12 + 1) false) = mr20
  rw [cmr_false_step mr7 12, hm8]
  show compute_merkle_root mr8 (List.replicate (11 + 1) zv0) (List.replicate (11 + 1) false) = mr20
  rw [cmr_false_step mr8 11, hm9]
  show compute_merkle_root mr9 (List.replicate (10 + 1) zv0) (List.replicate (10 + 1) false) = mr20
  rw [cmr_false_step mr9 10, hm10]
  show compute_merkle_root mr10 (List.replicate (9 + 1) zv0) (List.replicate (9 + 1) false) = mr20
  rw [cmr_false_step mr10 9, hm11]
  show compute_merkle_root mr11 (List.replicate (8 + 1) zv0) (List.replicate (8 + 1) false) = mr20
  rw [cmr_false_step mr11 8, hm12]
  show compute_merkle_root mr12 (List.replicate (7 + 1) zv0) (List.replicate (7 + 1) false) = mr20
  rw [cmr_false_step mr12 7, hm13]
  show compute_merkle_root mr13 (List.replicate (6 + 1) zv0) (List.replicate (6 + 1) false) = mr20
  rw [cmr_false_step mr13 6, hm14]
  show compute_merkle_root mr14 (List.replicate (5 + 1) zv0) (List.replicate (5 + 1) false) = mr20
  rw [cmr_false_step mr14 5, hm15]
  show compute_merkle_root mr15 (List.replicate (4 + 1) zv0) (List.replicate (4 + 1) false) = mr20
  rw [cmr_false_step mr15 4, hm16]
  show compute_merkle_root mr16 (List.replicate (3 + 1) zv0) (List.replicate (3 + 1) false) = mr20
  rw [cmr_false_step mr16 3, hm17]
  show compute_merkle_root mr17 (List.replicate (2 + 1) zv0) (List.replicate (2 + 1) false) = mr20
  rw [cmr_false_step mr17 2, hm18]
  show compute_merkle_root mr18 (List.replicate (1 + 1) zv0) (List.replicate (1 + 1) false) = mr20
  rw [cmr_false_step mr18 1, hm19]
  show compute_merkle_root mr19 (List.replicate (0 + 1) zv0) (List.replicate (0 + 1) false) = mr20
  rw [cmr_false_step mr19 0, hm20]
  rfl

theorem wVerify : verify_merkle_proof mr0 wPath wIdx mr20 = true :=
  (verify_eq_compute mr0 wPath wIdx mr20).mpr wChain

end Nullifier

namespace Nullifier

/-! ### Fee arithmetic -/

theorem fee_div_le (amount : Nat) :
    amount * FEE_BASIS_POINTS / BASIS_POINTS_DIVISOR ≤ amount := by
  have h1 : amount * FEE_BASIS_POINTS ≤ amount * BASIS_POINTS_DIVISOR := by
    apply Nat.mul_le_mul_left
    norm_num [FEE_BASIS_POINTS, BASIS_POINTS_DIVISOR]
  calc amount * FEE_BASIS_POINTS / BASIS_POINTS_DIVISOR
      ≤ amount * BASIS_POINTS_DIVISOR / BASIS_POINTS_DIVISOR := Nat.div_le_div_right h1
    _ = amount := Nat.mul_div_cancel amount (by norm_num [BASIS_POINTS_DIVISOR])

theorem fee_split_ok (amount : Nat) (h : amount * FEE_BASIS_POINTS < U64_MOD) :
    compute_fee_split amount =
      .ok (amount * FEE_BASIS_POINTS / BASIS_POINTS_DIVISOR,
           amount - amount * FEE_BASIS_POINTS / BASIS_POINTS_DIVISOR) := by
  have e1 : checked_mul_u64 amount FEE_BASIS_POINTS = some (amount * FEE_BASIS_POINTS) := by
    unfold checked_mul_u64
    rw [if_pos h]
  have e2 : checked_div_u64 (amount * FEE_BASIS_POINTS) BASIS_POINTS_DIVISOR =
      some (amount * FEE_BASIS_POINTS / BASIS_POINTS_DIVISOR) := by
    unfold checked_div_u64
    rw [if_neg (show ¬ (BASIS_POINTS_DIVISOR = 0) by norm_num [BASIS_POINTS_DIVISOR])]
  have e3 : checked_sub_u64 amount (amount * FEE_BASIS_POINTS / BASIS_POINTS_DIVISOR) =
      some (amount - amount * FEE_BASIS_POINTS / BASIS_POINTS_DIVISOR) := by
    unfold checked_sub_u64
    rw [if_pos (fee_div_le amount)]
  simp only [compute_fee_split, e1, e2, e3]

theorem fee_split_overflow (amount : Nat) (h : U64_MOD ≤ amount * FEE_BASIS_POINTS) :
    compute_fee_split amount = .error .ArithmeticOverflow := by
  unfold compute_fee_split checked_mul_u64
  rw [if_neg (by omega)]

theorem fee_split_ok_inv (amount fee net : Nat)
    (h : compute_fee_split amount = .ok (fee, net)) :
    fee = amount * FEE_BASIS_POINTS / BASIS_POINTS_DIVISOR ∧ fee + net = amount ∧ fee ≤ amount := by
  by_cases hok : amount * FEE_BASIS_POINTS < U64_MOD
  · rw [fee_split_ok amount hok] at h
    have hfe := fee_div_le amount
    cases h
    refine ⟨rfl, by omega, hfe⟩
  · rw [fee_split_overflow amount (by omega)] at h
    simp at h

/-! ### Gate-failure forms of withdraw -/

theorem withdraw_paused (s : MixerState) (n sec root : Bytes) (proof : List Bytes)
    (idx : List Bool) (now : Int) (h : s.paused = true) :
    withdraw s n sec root proof idx now = .error .MixerPaused := by
  unfold withdraw
  rw [if_pos (by simp [h])]

theorem withdraw_zero_nullifier (s : MixerState) (sec root : Bytes) (proof : List Bytes)
    (idx : List Bool) (now : Int) (h : s.paused = false) :
    withdraw s zero32 sec root proof idx now = .error .InvalidNullifier := by
  unfold withdraw
  rw [if_neg (by simp [h]), if_pos rfl]

theorem withdraw_zero_secret (s : MixerState) (n root : Bytes) (proof : List Bytes)
    (idx : List Bool) (now : Int) (h : s.paused = false) (h2 : ¬ n = zero32) :
    withdraw s n zero32 root proof idx now = .error .InvalidSecret := by
  unfold withdraw
  rw [if_neg (by simp [h]), if_neg h2, if_pos rfl]

theorem withdraw_used (s : MixerState) (n sec root : Bytes) (proof : List Bytes)
    (idx : List Bool) (now : Int) (h : s.paused = false) (h2 : ¬ n = zero32)
    (h3 : ¬ sec = zero32) (h4 : s.registry.is_used n = true) :
    withdraw s n sec root proof idx now = .error .NullifierAlreadyUsed := by
  unfold withdraw
  rw [if_neg (by simp [h]), if_neg h2, if_neg h3, if_pos (by simp [h4])]

theorem withdraw_used_not_ok (s : MixerState) (n sec root : Bytes) (proof : List Bytes)
    (idx : List Bool) (now : Int) (h4 : s.registry.is_used n = true) :
    (withdraw s n sec root proof idx now).isOk = false := by
  by_cases h1 : s.paused = true
  · rw [withdraw_paused s n sec root proof idx now h1]; rfl
  · replace h1 : s.paused = false := by simpa using h1
    by_cases h2 : n = zero32
    · subst h2; rw [withdraw_zero_nullifier s sec root proof idx now h1]; rfl
    · by_cases h3 : sec = zero32
      · subst h3; rw [withdraw_zero_secret s n root proof idx now h1 h2]; rfl
      · rw [withdraw_used s n sec root proof idx now h1 h2 h3 h4]; rfl

end Nullifier

namespace Nullifier

/-! ### The remaining exits of withdraw, each with the gates before it passing -/

theorem withdraw_bad_proof (s : MixerState) (n sec root : Bytes) (proof : List Bytes)
    (idx : List Bool) (now : Int)
    (h1 : s.paused = false) (h2 : ¬ n = zero32) (h3 : ¬ sec = zero32)
    (h4 : s.registry.is_used n = false)
    (h5 : verify_merkle_proof (compute_commitment sec n) proof idx root = false) :
    withdraw s n sec root proof idx now = .error .InvalidMerkleProof := by
  simp [withdraw, h1, h2, h3, h4, h5]

theorem withdraw_anonymity (s : MixerState) (n sec root : Bytes) (proof : List Bytes)
    (idx : List Bool) (now : Int)
    (h1 : s.paused = false) (h2 : ¬ n = zero32) (h3 : ¬ sec = zero32)
    (h4 : s.registry.is_used n = false)
    (h5 : verify_merkle_proof (compute_commitment sec n) proof idx root = true)
    (h6 : s.pool.total_deposits < 2) :
    withdraw s n sec root proof idx now = .error .InsufficientAnonymitySet := by
  simp [withdraw, h1, h2, h3, h4, h5, Nat.not_le.mpr h6]

theorem withdraw_time_calc (s : MixerState) (n sec root : Bytes) (proof : List Bytes)
    (idx : List Bool) (now : Int)
    (h1 : s.paused = false) (h2 : ¬ n = zero32) (h3 : ¬ sec = zero32)
    (h4 : s.registry.is_used n = false)
    (h5 : verify_merkle_proof (compute_commitment sec n) proof idx root = true)
    (h6 : 2 ≤ s.pool.total_deposits)
    (h7 : checked_sub_i64 now s.pool.creation_timestamp = none) :
    withdraw s n sec root proof idx now = .error .TimeCalculationError := by
  simp [withdraw, h1, h2, h3, h4, h5, h6, h7]

theorem withdraw_time_delay (s : MixerState) (n sec root : Bytes) (proof : List Bytes)
    (idx : List Bool) (now : Int) (age : Int)
    (h1 : s.paused = false) (h2 : ¬ n = zero32) (h3 : ¬ sec = zero32)
    (h4 : s.registry.is_used n = false)
    (h5 : verify_merkle_proof (compute_commitment sec n) proof idx root = true)
    (h6 : 2 ≤ s.pool.total_deposits)
    (h7 : checked_sub_i64 now s.pool.creation_timestamp = some age)
    (h8 : age < s.pool.min_delay) :
    withdraw s n sec root proof idx now = .error .TimeDelayNotMet := by
  simp [withdraw, h1, h2, h3, h4, h5, h6, h7, not_le.mpr h8]

theorem withdraw_fee_err (s : MixerState) (n sec root : Bytes) (proof : List Bytes)
    (idx : List Bool) (now : Int) (age : Int) (e : MixerError)
    (h1 : s.paused = false) (h2 : ¬ n = zero32) (h3 : ¬ sec = zero32)
    (h4 : s.registry.is_used n = false)
    (h5 : verify_merkle_proof (compute_commitment sec n) proof idx root = true)
    (h6 : 2 ≤ s.pool.total_deposits)
    (h7 : checked_sub_i64 now s.pool.creation_timestamp = some age)
    (h8 : s.pool.min_delay ≤ age)
    (h9 : compute_fee_split s.pool.denomination = .error e) :
    withdraw s n sec root proof idx now = .error e := by
  simp [withdraw, h1, h2, h3, h4, h5, h6, h7, h8, h9]

theorem withdraw_no_funds (s : MixerState) (n sec root : Bytes) (proof : List Bytes)
    (idx : List Bool) (now : Int) (age : Int) (fee net : Nat)
    (h1 : s.paused = false) (h2 : ¬ n = zero32) (h3 : ¬ sec = zero32)
    (h4 : s.registry.is_used n = false)
    (h5 : verify_merkle_proof (compute_commitment sec n) proof idx root = true)
    (h6 : 2 ≤ s.pool.total_deposits)
    (h7 : checked_sub_i64 now s.pool.creation_timestamp = some age)
    (h8 : s.pool.min_delay ≤ age)
    (h9 : compute_fee_split s.pool.denomination = .ok (fee, net))
    (h10 : s.pool_balance < s.pool.denomination) :
    withdraw s n sec root proof idx now = .error .InsufficientFunds := by
  simp [withdraw, h1, h2, h3, h4, h5, h6, h7, h8, h9, Nat.not_le.mpr h10]

theorem withdraw_ok (s : MixerState) (n sec root : Bytes) (proof : List Bytes)
    (idx : List Bool) (now : Int) (age : Int) (fee net : Nat)
    (h1 : s.paused = false) (h2 : ¬ n = zero32) (h3 : ¬ sec = zero32)
    (h4 : s.registry.is_used n = false)
    (h5 : verify_merkle_proof (compute_commitment sec n) proof idx root = true)
    (h6 : 2 ≤ s.pool.total_deposits)
    (h7 : checked_sub_i64 now s.pool.creation_timestamp = some age)
    (h8 : s.pool.min_delay ≤ age)
    (h9 : compute_fee_split s.pool.denomination = .ok (fee, net))
    (h10 : s.pool.denomination ≤ s.pool_balance)
    (h11 : net ≤ s.pool_balance)
    (h12 : s.recipient_balance + net < U64_MOD)
    (h13 : fee ≤ s.pool_balance - net)
    (h14 : s.fee_collector_balance + fee < U64_MOD)
    (h15 : s.registry.nullifiers.length < MAX_NULLIFIERS_PER_ACCOUNT) :
    withdraw s n sec root proof idx now = .ok { s with
      pool_balance := s.pool_balance - net - fee,
      recipient_balance := s.recipient_balance + net,
      fee_collector_balance := s.fee_collector_balance + fee,
      registry := ⟨s.registry.nullifiers ++ [n]⟩,
      pool := { s.pool with total_withdrawals := s.pool.total_withdrawals + 1 } } := by
  have eb1 : checked_sub_u64 s.pool_balance net = some (s.pool_balance - net) := by
    unfold checked_sub_u64
    rw [if_pos h11]
  have eb2 : checked_add_u64 s.recipient_balance net = some (s.recipient_balance + net) := by
    unfold checked_add_u64
    rw [if_pos h12]
  have eb3 : checked_sub_u64 (s.pool_balance - net) fee = some (s.pool_balance - net - fee) := by
    unfold checked_sub_u64
    rw [if_pos h13]
  have eb4 : checked_add_u64 s.fee_collector_balance fee =
      some (s.fee_collector_balance + fee) := by
    unfold checked_add_u64
    rw [if_pos h14]
  have e0 : s.registry.add_nullifier n = .ok ⟨s.registry.nullifiers ++ [n]⟩ := by
    unfold NullifierRegistry.add_nullifier
    rw [if_pos h15]
  simp [withdraw, h1, h2, h3, h4, h5, h6, h7, h8, h9, h10, eb1, eb2, eb3, eb4, e0]

end Nullifier

namespace Nullifier

theorem withdraw_recipient_overflow (s : MixerState) (n sec root : Bytes) (proof : List Bytes)
    (idx : List Bool) (now : Int) (age : Int) (fee net : Nat)
    (h1 : s.paused = false) (h2 : ¬ n = zero32) (h3 : ¬ sec = zero32)
    (h4 : s.registry.is_used n = false)
    (h5 : verify_merkle_proof (compute_commitment sec n) proof idx root = true)
    (h6 : 2 ≤ s.pool.total_deposits)
    (h7 : checked_sub_i64 now s.pool.creation_timestamp = some age)
    (h8 : s.pool.min_delay ≤ age)
    (h9 : compute_fee_split s.pool.denomination = .ok (fee, net))
    (h10 : s.pool.denomination ≤ s.pool_balance)
    (h11 : net ≤ s.pool_balance)
    (h12 : U64_MOD ≤ s.recipient_balance + net) :
    withdraw s n sec root proof idx now = .error .ArithmeticOverflow := by
  have eb1 : checked_sub_u64 s.pool_balance net = some (s.pool_balance - net) := by
    unfold checked_sub_u64
    rw [if_pos h11]
  have eb2 : checked_add_u64 s.recipient_balance net = none := by
    unfold checked_add_u64
    rw [if_neg (by omega)]
  simp [withdraw, h1, h2, h3, h4, h5, h6, h7, h8, h9, h10, eb1, eb2]

theorem withdraw_collector_overflow (s : MixerState) (n sec root : Bytes) (proof : List Bytes)
    (idx : List Bool) (now : Int) (age : Int) (fee net : Nat)
    (h1 : s.paused = false) (h2 : ¬ n = zero32) (h3 : ¬ sec = zero32)
    (h4 : s.registry.is_used n = false)
    (h5 : verify_merkle_proof (compute_commitment sec n) proof idx root = true)
    (h6 : 2 ≤ s.pool.total_deposits)
    (h7 : checked_sub_i64 now s.pool.creation_timestamp = some age)
    (h8 : s.pool.min_delay ≤ age)
    (h9 : compute_fee_split s.pool.denomination = .ok (fee, net))
    (h10 : s.pool.denomination ≤ s.pool_balance)
    (h11 : net ≤ s.pool_balance)
    (h12 : s.recipient_balance + net < U64_MOD)
    (h13 : fee ≤ s.pool_balance - net)
    (h14 : U64_MOD ≤ s.fee_collector_balance + fee) :
    withdraw s n sec root proof idx now = .error .ArithmeticOverflow := by
  have eb1 : checked_sub_u64 s.pool_balance net = some (s.pool_balance - net) := by
    unfold checked_sub_u64
    rw [if_pos h11]
  have eb2 : checked_add_u64 s.recipient_balance net = some (s.recipient_balance + net) := by
    unfold checked_add_u64
    rw [if_pos h12]
  have eb3 : checked_sub_u64 (s.pool_balance - net) fee = some (s.pool_balance - net - fee) := by
    unfold checked_sub_u64
    rw [if_pos h13]
  have eb4 : checked_add_u64 s.fee_collector_balance fee = none := by
    unfold checked_add_u64
    rw [if_neg (by omega)]
  simp [withdraw, h1, h2, h3, h4, h5, h6, h7, h8, h9, h10, eb1, eb2, eb3, eb4]

theorem withdraw_registry_full (s : MixerState) (n sec root : Bytes) (proof : List Bytes)
    (idx : List Bool) (now : Int) (age : Int) (fee net : Nat)
    (h1 : s.paused = false) (h2 : ¬ n = zero32) (h3 : ¬ sec = zero32)
    (h4 : s.registry.is_used n = false)
    (h5 : verify_merkle_proof (compute_commitment sec n) proof idx root = true)
    (h6 : 2 ≤ s.pool.total_deposits)
    (h7 : checked_sub_i64 now s.pool.creation_timestamp = some age)
    (h8 : s.pool.min_delay ≤ age)
    (h9 : compute_fee_split s.pool.denomination = .ok (fee, net))
    (h10 : s.pool.denomination ≤ s.pool_balance)
    (h11 : net ≤ s.pool_balance)
    (h12 : s.recipient_balance + net < U64_MOD)
    (h13 : fee ≤ s.pool_balance - net)
    (h14 : s.fee_collector_balance + fee < U64_MOD)
    (h15 : MAX_NULLIFIERS_PER_ACCOUNT ≤ s.registry.nullifiers.length) :
    withdraw s n sec root proof idx now = .error .NullifierRegistryFull := by
  have eb1 : checked_sub_u64 s.pool_balance net = some (s.pool_balance - net) := by
    unfold checked_sub_u64
    rw [if_pos h11]
  have eb2 : checked_add_u64 s.recipient_balance net = some (s.recipient_balance + net) := by
    unfold checked_add_u64
    rw [if_pos h12]
  have eb3 : checked_sub_u64 (s.pool_balance - net) fee = some (s.pool_balance - net - fee) := by
    unfold checked_sub_u64
    rw [if_pos h13]
  have eb4 : checked_add_u64 s.fee_collector_balance fee =
      some (s.fee_collector_balance + fee) := by
    unfold checked_add_u64
    rw [if_pos h14]
  have e0 : s.registry.add_nullifier n = .error .NullifierRegistryFull := by
    unfold NullifierRegistry.add_nullifier
    rw [if_neg (by omega)]
  simp [withdraw, h1, h2, h3, h4, h5, h6, h7, h8, h9, h10, eb1, eb2, eb3, eb4, e0]

/-! ### deposit lemmas -/

theorem deposit_ok (s : MixerState) (c : Bytes) (ed : List Nat)
    (h1 : s.paused = false) (h2 : ¬ c = zero32) (h3 : ed.length ≤ 200)
    (h4 : s.pool.next_leaf_index < 1048576) :
    deposit s c ed = .ok { s with
      pool_balance := s.pool_balance + s.pool.denomination,
      pool := { s.pool with
        next_leaf_index := s.pool.next_leaf_index + 1,
        total_deposits := s.pool.total_deposits + 1 } } := by
  simp [deposit, h1, h2, h3, h4]

end Nullifier

namespace Nullifier

/-- Everything a successful withdraw implies about the pre- and post-state. -/
theorem withdraw_ok_inv (s s2 : MixerState) (n sec root : Bytes) (proof : List Bytes)
    (idx : List Bool) (now : Int)
    (h : withdraw s n sec root proof idx now = .ok s2) :
    s.paused = false
    ∧ ¬ n = zero32
    ∧ s.registry.is_used n = false
    ∧ 2 ≤ s.pool.total_deposits
    ∧ s.pool.denomination ≤ s.pool_balance
    ∧ s.registry.nullifiers.length < MAX_NULLIFIERS_PER_ACCOUNT
    ∧ s2.registry.nullifiers = s.registry.nullifiers ++ [n]
    ∧ s2.pool.total_withdrawals = s.pool.total_withdrawals + 1
    ∧ s2.pool.total_deposits = s.pool.total_deposits
    ∧ s2.pool.denomination = s.pool.denomination
    ∧ s2.pool.next_leaf_index = s.pool.next_leaf_index
    ∧ s2.paused = s.paused
    ∧ s2.pool_balance + s.pool.denomination = s.pool_balance := by
  by_cases h1 : s.paused = true
  · rw [withdraw_paused s n sec root proof idx now h1] at h
    simp at h
  replace h1 : s.paused = false := by simpa using h1
  by_cases h2 : n = zero32
  · subst h2
    rw [withdraw_zero_nullifier s sec root proof idx now h1] at h
    simp at h
  by_cases h3 : sec = zero32
  · subst h3
    rw [withdraw_zero_secret s n root proof idx now h1 h2] at h
    simp at h
  by_cases h4 : s.registry.is_used n = true
  · rw [withdraw_used s n sec root proof idx now h1 h2 h3 h4] at h
    simp at h
  replace h4 : s.registry.is_used n = false := by simpa using h4
  by_cases h5 : verify_merkle_proof (compute_commitment sec n) proof idx root = true
  case neg =>
    rw [withdraw_bad_proof s n sec root proof idx now h1 h2 h3 h4 (by simpa using h5)] at h
    simp at h
  by_cases h6 : 2 ≤ s.pool.total_deposits
  case neg =>
    rw [withdraw_anonymity s n sec root proof idx now h1 h2 h3 h4 h5 (by omega)] at h
    simp at h
  cases h7 : checked_sub_i64 now s.pool.creation_timestamp with
  | none =>
    rw [withdraw_time_calc s n sec root proof idx now h1 h2 h3 h4 h5 h6 h7] at h
    simp at h
  | some age =>
  by_cases h8 : s.pool.min_delay ≤ age
  case neg =>
    rw [withdraw_time_delay s n sec root proof idx now age h1 h2 h3 h4 h5 h6 h7 (by omega)] at h
    simp at h
  cases hfee : compute_fee_split s.pool.denomination with
  | error e =>
    rw [withdraw_fee_err s n sec root proof idx now age e h1 h2 h3 h4 h5 h6 h7 h8 hfee] at h
    simp at h
  | ok p =>
  obtain ⟨fee, net⟩ := p
  obtain ⟨hfe, hfn, hfl⟩ := fee_split_ok_inv s.pool.denomination fee net hfee
  by_cases h10 : s.pool.denomination ≤ s.pool_balance
  case neg =>
    rw [withdraw_no_funds s n sec root proof idx now age fee net h1 h2 h3 h4 h5 h6 h7 h8 hfee
      (by omega)] at h
    simp at h
  have h11 : net ≤ s.pool_balance := by omega
  by_cases h12 : s.recipient_balance + net < U64_MOD
  case neg =>
    rw [withdraw_recipient_overflow s n sec root proof idx now age fee net h1 h2 h3 h4 h5 h6 h7
      h8 hfee h10 h11 (by omega)] at h
    simp at h
  have h13 : fee ≤ s.pool_balance - net := by omega
  by_cases h14 : s.fee_collector_balance + fee < U64_MOD
  case neg =>
    rw [withdraw_collector_overflow s n sec root proof idx now age fee net h1 h2 h3 h4 h5 h6 h7
      h8 hfee h10 h11 h12 h13 (by omega)] at h
    simp at h
  by_cases h15 : s.registry.nullifiers.length < MAX_NULLIFIERS_PER_ACCOUNT
  case neg =>
    rw [withdraw_registry_full s n sec root proof idx now age fee net h1 h2 h3 h4 h5 h6 h7 h8
      hfee h10 h11 h12 h13 h14 (by omega)] at h
    simp at h
  rw [withdraw_ok s n sec root proof idx now age fee net h1 h2 h3 h4 h5 h6 h7 h8 hfee h10 h11
    h12 h13 h14 h15] at h
  simp only [Except.ok.injEq] at h
  subst h
  refine ⟨h1, h2, h4, h6, h10, h15, rfl, rfl, rfl, rfl, rfl, rfl, ?_⟩
  show s.pool_balance - net - fee + s.pool.denomination = s.pool_balance
  omega

end Nullifier

namespace Nullifier

theorem deposit_ok_inv (s s2 : MixerState) (c : Bytes) (ed : List Nat)
    (h : deposit s c ed = .ok s2) :
    s2.paused = s.paused
    ∧ s2.registry = s.registry
    ∧ s2.pool.denomination = s.pool.denomination
    ∧ s2.pool.total_withdrawals = s.pool.total_withdrawals
    ∧ s2.pool.total_deposits = s.pool.total_deposits + 1
    ∧ s2.pool_balance = s.pool_balance + s.pool.denomination := by
  by_cases h1 : s.paused = true
  · simp [deposit, h1] at h
  replace h1 : s.paused = false := by simpa using h1
  by_cases h2 : c = zero32
  · simp [deposit, h1, h2] at h
  by_cases h3 : ed.length ≤ 200
  case neg => simp [deposit, h1, h2, h3] at h
  by_cases h4 : s.pool.next_leaf_index < 1048576
  case neg => simp [deposit, h1, h2, h3, h4] at h
  rw [deposit_ok s c ed h1 h2 h3 h4] at h
  simp only [Except.ok.injEq] at h
  subst h
  exact ⟨rfl, rfl, rfl, rfl, rfl, rfl⟩

theorem close_pool_ok_inv (s s2 : MixerState) (h : close_pool s = .ok s2) :
    s.pool.total_deposits = s.pool.total_withdrawals
    ∧ s2.pool = s.pool ∧ s2.registry = s.registry ∧ s2.paused = s.paused
    ∧ s2.pool_balance = 0 := by
  by_cases hc : s.pool.total_deposits = s.pool.total_withdrawals
  · unfold close_pool at h
    rw [if_neg (not_not_intro hc)] at h
    simp only [Except.ok.injEq] at h
    subst h
    exact ⟨hc, rfl, rfl, rfl, rfl⟩
  · unfold close_pool at h
    rw [if_pos hc] at h
    simp at h

theorem create_pool_ok_inv (denom : Nat) (md now : Int) (rent : Nat) (s : MixerState)
    (h : create_pool denom md now rent = .ok s) :
    (denom = DENOMINATION_01_SOL ∨ denom = DENOMINATION_1_SOL ∨
      denom = DENOMINATION_10_SOL ∨ denom = DENOMINATION_100_SOL)
    ∧ s.pool.denomination = denom
    ∧ s.pool.total_deposits = 0 ∧ s.pool.total_withdrawals = 0
    ∧ s.pool_balance = rent ∧ s.registry = ⟨[]⟩ ∧ s.paused = false := by
  by_cases hd : denom = DENOMINATION_01_SOL ∨ denom = DENOMINATION_1_SOL ∨
      denom = DENOMINATION_10_SOL ∨ denom = DENOMINATION_100_SOL
  case neg =>
    unfold create_pool at h
    rw [if_pos hd] at h
    simp at h
  by_cases ht : MIN_TIME_DELAY ≤ md
  case neg =>
    unfold create_pool at h
    rw [if_neg (not_not_intro hd), if_pos ht] at h
    simp at h
  unfold create_pool at h
  rw [if_neg (not_not_intro hd), if_neg (not_not_intro ht)] at h
  simp only [Except.ok.injEq] at h
  subst h
  exact ⟨hd, rfl, rfl, rfl, rfl, rfl, rfl⟩

/-! ### Registry monotonicity across operations -/

theorem mem_registry_step (s s2 : MixerState) (op : Op) (x : Bytes)
    (hop : op ≠ Op.reset_registry)
    (h : step s op = .ok s2) (hx : x ∈ s.registry.nullifiers) : x ∈ s2.registry.nullifiers := by
  cases op with
  | deposit c ed =>
    obtain ⟨-, hreg, -, -, -, -⟩ := deposit_ok_inv s s2 c ed h
    rw [hreg]
    exact hx
  | withdraw n sec root proof idx now =>
    obtain ⟨-, -, -, -, -, -, hreg, -⟩ := withdraw_ok_inv s s2 n sec root proof idx now h
    rw [hreg]
    exact List.mem_append_left _ hx
  | pause =>
    simp only [step, pause, Except.ok.injEq] at h
    subst h
    exact hx
  | unpause =>
    simp only [step, unpause, Except.ok.injEq] at h
    subst h
    exact hx
  | close_pool =>
    obtain ⟨-, -, hreg, -, -⟩ := close_pool_ok_inv s s2 h
    rw [hreg]
    exact hx
  | force_close_pool =>
    simp only [step, force_close_pool, Except.ok.injEq] at h
    subst h
    exact hx
  | reset_registry => exact absurd rfl hop

theorem mem_registry_applyOp (s : MixerState) (op : Op) (x : Bytes)
    (hop : op ≠ Op.reset_registry)
    (hx : x ∈ s.registry.nullifiers) : x ∈ (applyOp s op).registry.nullifiers := by
  unfold applyOp
  cases hs : step s op with
  | error e => exact hx
  | ok s2 => exact mem_registry_step s s2 op x hop hs hx

theorem mem_registry_execOps (ops : List Op) (s : MixerState) (x : Bytes)
    (hni : Op.reset_registry ∉ ops)
    (hx : x ∈ s.registry.nullifiers) : x ∈ (execOps s ops).registry.nullifiers := by
  induction ops generalizing s with
  | nil => exact hx
  | cons op ops ih =>
    have hop : op ≠ Op.reset_registry := by
      intro he
      exact hni (he ▸ List.mem_cons_self op ops)
    have hni2 : Op.reset_registry ∉ ops := fun hm => hni (List.mem_cons_of_mem op hm)
    exact ih (applyOp s op) hni2 (mem_registry_applyOp s op x hop hx)

end Nullifier

namespace Nullifier

/-! ### Counter and balance invariant over reachable states -/

theorem deposit_arith (rent denom w d balance : Nat)
    (hb : balance + w * denom ≤ rent + d * denom) :
    balance + denom + w * denom ≤ rent + (d + 1) * denom := by
  have e : (d + 1) * denom = d * denom + denom := Nat.succ_mul d denom
  rw [e]
  revert hb
  generalize w * denom = x
  generalize d * denom = y
  intro hb
  omega

theorem counter_step (rent denom w d balance : Nat)
    (hrd : rent < denom) (hpos : 0 < denom)
    (hbal : balance + w * denom ≤ rent + d * denom)
    (hge : denom ≤ balance) :
    w + 1 ≤ d ∧ balance - denom + (w + 1) * denom ≤ rent + d * denom := by
  have hmul : w * denom < d * denom := by
    have h1 : denom + w * denom ≤ rent + d * denom := by
      have h0 : denom + w * denom ≤ balance + w * denom := Nat.add_le_add_right hge _
      exact le_trans h0 hbal
    have h2 : rent + d * denom < denom + d * denom := Nat.add_lt_add_right hrd _
    have h3 : denom + w * denom < denom + d * denom := lt_of_le_of_lt h1 h2
    exact Nat.lt_of_add_lt_add_left h3
  have hwd : w < d := by
    by_contra hc
    push_neg at hc
    exact absurd (Nat.mul_le_mul_right denom hc) (Nat.not_le.mpr hmul)
  have e : (w + 1) * denom = w * denom + denom := Nat.succ_mul w denom
  refine ⟨hwd, ?_⟩
  rw [e]
  revert hbal hmul
  generalize w * denom = x
  generalize d * denom = y
  intro hbal hmul
  omega

theorem reachable_inv (rent : Nat) (s : MixerState) (hr : Reachable rent s)
    (hrent : rent < DENOMINATION_01_SOL) :
    DENOMINATION_01_SOL ≤ s.pool.denomination
    ∧ s.pool.total_withdrawals ≤ s.pool.total_deposits
    ∧ s.pool_balance + s.pool.total_withdrawals * s.pool.denomination ≤
        rent + s.pool.total_deposits * s.pool.denomination := by
  induction hr with
  | created denom md now s h =>
    obtain ⟨hd, hden, hdep, hw, hb, -, -⟩ := create_pool_ok_inv denom md now rent s h
    refine ⟨?_, ?_, ?_⟩
    · rw [hden]
      rcases hd with h | h | h | h <;>
        simp [h, DENOMINATION_01_SOL, DENOMINATION_1_SOL, DENOMINATION_10_SOL,
          DENOMINATION_100_SOL]
    · rw [hdep, hw]
    · rw [hdep, hw, hb]
  | stepped s op s2 hr hstep ih =>
    obtain ⟨ihd, ihw, ihb⟩ := ih
    cases op with
    | deposit c ed =>
      obtain ⟨-, -, hden, hw, hd, hb⟩ := deposit_ok_inv s s2 c ed hstep
      refine ⟨by rw [hden]; exact ihd, by rw [hw, hd]; omega, ?_⟩
      rw [hb, hw, hd, hden]
      exact deposit_arith rent s.pool.denomination s.pool.total_withdrawals
        s.pool.total_deposits s.pool_balance ihb
    | withdraw n sec root proof idx now =>
      obtain ⟨-, -, -, -, hge, -, -, hw, hd, hden, -, -, hb⟩ :=
        withdraw_ok_inv s s2 n sec root proof idx now hstep
      have hrd : rent < s.pool.denomination :=
        lt_of_lt_of_le hrent ihd
      have hpos : 0 < s.pool.denomination := by
        have : (0 : Nat) < DENOMINATION_01_SOL := by norm_num [DENOMINATION_01_SOL]
        omega
      obtain ⟨hc1, hc2⟩ := counter_step rent s.pool.denomination s.pool.total_withdrawals
        s.pool.total_deposits s.pool_balance hrd hpos ihb hge
      refine ⟨by rw [hden]; exact ihd, by rw [hw, hd]; omega, ?_⟩
      rw [hw, hd, hden]
      have hb2 : s2.pool_balance = s.pool_balance - s.pool.denomination := by omega
      rw [hb2]
      exact hc2
    | pause =>
      simp only [step, pause, Except.ok.injEq] at hstep
      subst hstep
      exact ⟨ihd, ihw, ihb⟩
    | unpause =>
      simp only [step, unpause, Except.ok.injEq] at hstep
      subst hstep
      exact ⟨ihd, ihw, ihb⟩
    | close_pool =>
      obtain ⟨heq, hpool, -, -, hb⟩ := close_pool_ok_inv s s2 hstep
      rw [hpool, hb]
      exact ⟨ihd, ihw, by omega⟩
    | force_close_pool =>
      simp only [step, force_close_pool, Except.ok.injEq] at hstep
      subst hstep
      exact ⟨ihd, ihw, by simp; omega⟩
    | reset_registry =>
      simp only [step, reset_registry, Except.ok.injEq] at hstep
      subst hstep
      exact ⟨ihd, ihw, ihb⟩

theorem reachable_registry_le (rent : Nat) (s : MixerState) (hr : Reachable rent s) :
    s.registry.nullifiers.length ≤ MAX_NULLIFIERS_PER_ACCOUNT := by
  induction hr with
  | created denom md now s h =>
    obtain ⟨-, -, -, -, -, hreg, -⟩ := create_pool_ok_inv denom md now rent s h
    rw [hreg]
    simp [MAX_NULLIFIERS_PER_ACCOUNT]
  | stepped s op s2 hr hstep ih =>
    cases op with
    | deposit c ed =>
      obtain ⟨-, hreg, -⟩ := deposit_ok_inv s s2 c ed hstep
      rw [hreg]
      exact ih
    | withdraw n sec root proof idx now =>
      obtain ⟨-, -, -, -, -, hlen, hreg, -⟩ := withdraw_ok_inv s s2 n sec root proof idx now hstep
      rw [hreg]
      simp only [List.length_append, List.length_cons, List.length_nil]
      omega
    | pause =>
      simp only [step, pause, Except.ok.injEq] at hstep
      subst hstep
      exact ih
    | unpause =>
      simp only [step, unpause, Except.ok.injEq] at hstep
      subst hstep
      exact ih
    | close_pool =>
      obtain ⟨-, -, hreg, -, -⟩ := close_pool_ok_inv s s2 hstep
      rw [hreg]
      exact ih
    | force_close_pool =>
      simp only [step, force_close_pool, Except.ok.injEq] at hstep
      subst hstep
      exact ih
    | reset_registry =>
      simp only [step, reset_registry, Except.ok.injEq] at hstep
      subst hstep
      simp [MAX_NULLIFIERS_PER_ACCOUNT]

end Nullifier

namespace Nullifier

theorem is_used_iff (reg : NullifierRegistry) (n : Bytes) :
    reg.is_used n = true ↔ n ∈ reg.nullifiers := by
  simp [NullifierRegistry.is_used]

theorem add_all_ok (reg : NullifierRegistry) (ns : List Bytes)
    (h : reg.nullifiers.length + ns.length ≤ MAX_NULLIFIERS_PER_ACCOUNT) :
    reg.add_all ns = .ok ⟨reg.nullifiers ++ ns⟩ := by
  induction ns generalizing reg with
  | nil =>
    simp [NullifierRegistry.add_all]
  | cons n ns ih =>
    have hlt : reg.nullifiers.length < MAX_NULLIFIERS_PER_ACCOUNT := by
      simp at h
      omega
    have e0 : reg.add_nullifier n = .ok ⟨reg.nullifiers ++ [n]⟩ := by
      unfold NullifierRegistry.add_nullifier
      rw [if_pos hlt]
    simp only [NullifierRegistry.add_all, e0]
    rw [ih ⟨reg.nullifiers ++ [n]⟩ (by simp at h ⊢; omega)]
    simp

/-- The commitment recomputed from the sample secret and nullifier passes the
sample Merkle proof. -/
theorem wVerifyC :
    verify_merkle_proof (compute_commitment wSecret wNullifier) wPath wIdx mr20 = true := by
  rw [hmc]
  exact wVerify

/-- The concrete withdrawal from wState succeeds and produces wPost. -/
theorem wOk : withdraw wState wNullifier wSecret mr20 wPath wIdx 100 = .ok wPost := by
  have hfeeW : compute_fee_split wState.pool.denomination = .ok (100000, 99900000) := by decide
  have h := withdraw_ok wState wNullifier wSecret mr20 wPath wIdx 100 100 100000 99900000
    rfl (by decide) (by decide) rfl wVerifyC (by decide) (by decide) (by decide) hfeeW
    (by decide) (by decide) (by decide) (by decide) (by decide) (by decide)
  exact h.trans (by decide)

end Nullifier

namespace Nullifier

/-! ### Claim theorems -/

/-- C1: for every leaf, path and direction bits of depth 20 and every claimed
root, verify_merkle_proof folds the leaf level by level — hash_pair(path[i],
current) when indices[i] is true, hash_pair(current, path[i]) otherwise — and
returns true iff the folded value (compute_merkle_root) equals the claimed
root; verifying against the computed root succeeds, and a differing root gives
false (the function is total, it never errors). -/
theorem C1_verify_merkle_proof_correct (leaf root : Bytes) (path : List Bytes)
    (path_indices : List Bool)
    (hp : path.length = MERKLE_TREE_DEPTH) (hi : path_indices.length = MERKLE_TREE_DEPTH) :
    (verify_merkle_proof leaf path path_indices root = true ↔
      compute_merkle_root leaf path path_indices = root)
    ∧ verify_merkle_proof leaf path path_indices
        (compute_merkle_root leaf path path_indices) = true
    ∧ (compute_merkle_root leaf path path_indices ≠ root →
        verify_merkle_proof leaf path path_indices root = false)
    ∧ (∀ (p : Bytes) (b : Bool) (ps : List Bytes) (bs : List Bool),
        compute_merkle_root leaf (p :: ps) (b :: bs) =
          compute_merkle_root (if b then hash_pair p leaf else hash_pair leaf p) ps bs) := by
  refine ⟨verify_eq_compute leaf path path_indices root, ?_, ?_, ?_⟩
  · exact (verify_eq_compute _ _ _ _).mpr rfl
  · intro hne
    cases hv : verify_merkle_proof leaf path path_indices root
    · rfl
    · exact absurd ((verify_eq_compute _ _ _ _).mp hv) hne
  · intro p b ps bs
    exact compute_merkle_root_cons leaf p b ps bs

/-- Witness for C1 at the concrete sample proof. -/
theorem C1_witness :
    (verify_merkle_proof mr0 wPath wIdx mr20 = true ↔
      compute_merkle_root mr0 wPath wIdx = mr20)
    ∧ verify_merkle_proof mr0 wPath wIdx (compute_merkle_root mr0 wPath wIdx) = true
    ∧ (compute_merkle_root mr0 wPath wIdx ≠ mr20 →
        verify_merkle_proof mr0 wPath wIdx mr20 = false)
    ∧ (∀ (p : Bytes) (b : Bool) (ps : List Bytes) (bs : List Bool),
        compute_merkle_root mr0 (p :: ps) (b :: bs) =
          compute_merkle_root (if b then hash_pair p mr0 else hash_pair mr0 p) ps bs) :=
  C1_verify_merkle_proof_correct mr0 mr20 wPath wIdx
    (by simp [wPath, MERKLE_TREE_DEPTH]) (by simp [wIdx, MERKLE_TREE_DEPTH])

/-- C9: the placeholder Groth16 verifier accepts unconditionally: for every
proof, public inputs and verification key it returns Ok(true); it never
returns Ok(false) and never returns an error. -/
theorem C9_groth16_placeholder (proof : Groth16Proof) (pub : PublicInputs)
    (vk : VerificationKey) : verify_groth16_proof proof pub vk = .ok true := rfl

/-- C4: the hard-coded ZERO_VALUES table satisfies the zero-value recurrence —
level 0 is the all-zero 32-byte value and level i+1 is hash_pair of level i
with itself — and the table equals the computed table compute_zero_values. -/
theorem C4_zero_values :
    ZERO_VALUES.getD 0 [] = List.replicate 32 0
    ∧ (∀ i : Fin MERKLE_TREE_DEPTH,
        ZERO_VALUES.getD (i.1 + 1) [] =
          hash_pair (ZERO_VALUES.getD i.1 []) (ZERO_VALUES.getD i.1 []))
    ∧ ZERO_VALUES = compute_zero_values := by
  refine ⟨rfl, ?_, compute_zero_values_eq.symm⟩
  intro i
  fin_cases i
  · exact hz1.symm
  · exact hz2.symm
  · exact hz3.symm
  · exact hz4.symm
  · exact hz5.symm
  · exact hz6.symm
  · exact hz7.symm
  · exact hz8.symm
  · exact hz9.symm
  · exact hz10.symm
  · exact hz11.symm
  · exact hz12.symm
  · exact hz13.symm
  · exact hz14.symm
  · exact hz15.symm
  · exact hz16.symm
  · exact hz17.symm
  · exact hz18.symm
  · exact hz19.symm
  · exact hz20.symm

/-- C3: whenever withdraw or deposit returns an error, the committed state —
and with it the pool counters, the nullifier set and every balance — is
exactly the pre-state: the runtime discards all writes of a failed
instruction. -/
theorem C3_atomic_rejection :
    (∀ (s : MixerState) (n sec root : Bytes) (proof : List Bytes) (idx : List Bool)
        (now : Int) (e : MixerError),
      withdraw s n sec root proof idx now = .error e →
        applyExcept s (withdraw s n sec root proof idx now) = s)
    ∧ (∀ (s : MixerState) (c : Bytes) (ed : List Nat) (e : MixerError),
      deposit s c ed = .error e → applyExcept s (deposit s c ed) = s) := by
  constructor
  · intro s n sec root proof idx now e h
    rw [h]
    rfl
  · intro s c ed e h
    rw [h]
    rfl

/-- Witness for C3: a paused withdraw and a zero-commitment deposit are
rejected and commit nothing. -/
theorem C3_witness :
    applyExcept { wState with paused := true }
      (withdraw { wState with paused := true } wNullifier wSecret mr20 wPath wIdx 100) =
      { wState with paused := true }
    ∧ applyExcept wState (deposit wState zero32 []) = wState :=
  ⟨C3_atomic_rejection.1 { wState with paused := true } wNullifier wSecret mr20 wPath wIdx 100
      .MixerPaused rfl,
   C3_atomic_rejection.2 wState zero32 [] .InvalidCommitment rfl⟩

end Nullifier

namespace Nullifier

/-- C5: for every u64 amount, the fee computation yields
fee = amount * 10 / 10000 and net = amount - fee with fee + net = amount and
fee ≤ amount; when amount * 10 overflows u64 the computation — and with it the
whole withdrawal, whose earlier gates all passed — aborts with
ArithmeticOverflow, and an erroring withdrawal commits no state change. -/
theorem C5_fee_split_exact (amount : Nat) (hamt : amount < U64_MOD) :
    (amount * FEE_BASIS_POINTS < U64_MOD →
      compute_fee_split amount =
        .ok (amount * FEE_BASIS_POINTS / BASIS_POINTS_DIVISOR,
             amount - amount * FEE_BASIS_POINTS / BASIS_POINTS_DIVISOR)
      ∧ amount * FEE_BASIS_POINTS / BASIS_POINTS_DIVISOR +
          (amount - amount * FEE_BASIS_POINTS / BASIS_POINTS_DIVISOR) = amount
      ∧ amount * FEE_BASIS_POINTS / BASIS_POINTS_DIVISOR ≤ amount)
    ∧ (U64_MOD ≤ amount * FEE_BASIS_POINTS →
        compute_fee_split amount = .error .ArithmeticOverflow)
    ∧ (∀ (s : MixerState) (n sec root : Bytes) (proof : List Bytes) (idx : List Bool)
          (now age : Int),
        s.pool.denomination = amount →
        s.paused = false → ¬ n = zero32 → ¬ sec = zero32 →
        s.registry.is_used n = false →
        verify_merkle_proof (compute_commitment sec n) proof idx root = true →
        2 ≤ s.pool.total_deposits →
        checked_sub_i64 now s.pool.creation_timestamp = some age →
        s.pool.min_delay ≤ age →
        U64_MOD ≤ amount * FEE_BASIS_POINTS →
        withdraw s n sec root proof idx now = .error .ArithmeticOverflow)
    ∧ (∀ (s : MixerState) (n sec root : Bytes) (proof : List Bytes) (idx : List Bool)
          (now : Int) (e : MixerError),
        withdraw s n sec root proof idx now = .error e →
        applyExcept s (withdraw s n sec root proof idx now) = s) := by
  refine ⟨?_, ?_, ?_, ?_⟩
  · intro h
    have hfe := fee_div_le amount
    exact ⟨fee_split_ok amount h, by omega, hfe⟩
  · intro h
    exact fee_split_overflow amount h
  · intro s n sec root proof idx now age hden h1 h2 h3 h4 h5 h6 h7 h8 hov
    have hfee : compute_fee_split s.pool.denomination = .error .ArithmeticOverflow := by
      rw [hden]
      exact fee_split_overflow amount hov
    exact withdraw_fee_err s n sec root proof idx now age .ArithmeticOverflow
      h1 h2 h3 h4 h5 h6 h7 h8 hfee
  · intro s n sec root proof idx now e h
    rw [h]
    rfl

/-- Witness for C5: the 0.1 SOL denomination splits into fee 100000 and net
99900000, and a denomination of 2^63 overflows the fee multiplication inside a
withdrawal whose earlier gates all pass. -/
theorem C5_witness :
    compute_fee_split 100000000 = .ok (100000, 99900000)
    ∧ withdraw c5State wNullifier wSecret mr20 wPath wIdx 100 = .error .ArithmeticOverflow :=
  ⟨((C5_fee_split_exact 100000000 (by decide)).1 (by decide)).1.trans (by decide),
   (C5_fee_split_exact 9223372036854775808 (by decide)).2.2.1 c5State wNullifier wSecret mr20
     wPath wIdx 100 100 rfl rfl (by decide) (by decide) rfl wVerifyC (by decide) (by decide)
     (by decide) (by decide)⟩

/-- C7: starting from an empty registry, adding 100 distinct nullifiers
succeeds and stores exactly that list; any add against a registry holding
100 (or more) entries fails with NullifierRegistryFull (and, the result being
an error, mutates nothing); a below-capacity add appends exactly one entry;
and in every reachable state the registry length is at most 100. -/
theorem C7_registry_capacity :
    (∀ ns : List Bytes, ns.length = MAX_NULLIFIERS_PER_ACCOUNT → ns.Nodup →
      NullifierRegistry.add_all ⟨[]⟩ ns = .ok ⟨ns⟩)
    ∧ (∀ (reg : NullifierRegistry) (n : Bytes),
        reg.nullifiers.length < MAX_NULLIFIERS_PER_ACCOUNT →
        reg.add_nullifier n = .ok ⟨reg.nullifiers ++ [n]⟩)
    ∧ (∀ (reg : NullifierRegistry) (n : Bytes),
        MAX_NULLIFIERS_PER_ACCOUNT ≤ reg.nullifiers.length →
        reg.add_nullifier n = .error .NullifierRegistryFull)
    ∧ (∀ (rent : Nat) (s : MixerState), Reachable rent s →
        s.registry.nullifiers.length ≤ MAX_NULLIFIERS_PER_ACCOUNT) := by
  refine ⟨?_, ?_, ?_, ?_⟩
  · intro ns hlen _
    have h := add_all_ok ⟨[]⟩ ns (by simp [hlen])
    simpa using h
  · intro reg n h
    unfold NullifierRegistry.add_nullifier
    rw [if_pos h]
  · intro reg n h
    unfold NullifierRegistry.add_nullifier
    rw [if_neg (by omega)]
  · intro rent s hr
    exact reachable_registry_le rent s hr

/-- Witness for C7: one hundred distinct single-byte nullifiers all fit, the
one-hundred-and-first add fails, and a reachable fresh pool respects the
bound. -/
theorem C7_witness :
    NullifierRegistry.add_all ⟨[]⟩ c7List = .ok ⟨c7List⟩
    ∧ NullifierRegistry.add_nullifier ⟨c7List⟩ [200] = .error .NullifierRegistryFull
    ∧ initSt.registry.nullifiers.length ≤ MAX_NULLIFIERS_PER_ACCOUNT :=
  ⟨C7_registry_capacity.1 c7List (by decide) (by decide),
   C7_registry_capacity.2.2.1 ⟨c7List⟩ [200] (by decide),
   C7_registry_capacity.2.2.2 1000 initSt
     (Reachable.created 100000000 60 0 initSt (by decide))⟩

/-- C10: add_nullifier performs no duplicate check — below capacity it
succeeds and appends even a nullifier already present, so the stored list can
hold duplicates; protocol-level uniqueness comes solely from the is_used check
at the start of withdraw, which rejects a used nullifier with
NullifierAlreadyUsed. -/
theorem C10_no_duplicate_check :
    (∀ (reg : NullifierRegistry) (n : Bytes),
      reg.nullifiers.length < MAX_NULLIFIERS_PER_ACCOUNT →
      reg.add_nullifier n = .ok ⟨reg.nullifiers ++ [n]⟩)
    ∧ (∀ (reg : NullifierRegistry) (n : Bytes),
        reg.nullifiers.length < MAX_NULLIFIERS_PER_ACCOUNT → n ∈ reg.nullifiers →
        reg.add_nullifier n = .ok ⟨reg.nullifiers ++ [n]⟩ ∧ ¬ (reg.nullifiers ++ [n]).Nodup)
    ∧ (∀ (s : MixerState) (n sec root : Bytes) (proof : List Bytes) (idx : List Bool)
          (now : Int),
        s.paused = false → ¬ n = zero32 → ¬ sec = zero32 → s.registry.is_used n = true →
        withdraw s n sec root proof idx now = .error .NullifierAlreadyUsed) := by
  refine ⟨?_, ?_, ?_⟩
  · intro reg n h
    unfold NullifierRegistry.add_nullifier
    rw [if_pos h]
  · intro reg n h hmem
    refine ⟨by unfold NullifierRegistry.add_nullifier; rw [if_pos h], ?_⟩
    intro hnd
    rw [List.nodup_append] at hnd
    exact hnd.2.2 hmem (by simp)
  · intro s n sec root proof idx now h1 h2 h3 h4
    exact withdraw_used s n sec root proof idx now h1 h2 h3 h4

/-- Witness for C10: adding the already-stored wNullifier again succeeds and
creates a duplicate, and a withdraw from wPost with the spent wNullifier is
rejected with NullifierAlreadyUsed. -/
theorem C10_witness :
    NullifierRegistry.add_nullifier ⟨[wNullifier]⟩ wNullifier =
      .ok ⟨[wNullifier] ++ [wNullifier]⟩
    ∧ ¬ ([wNullifier] ++ [wNullifier]).Nodup
    ∧ withdraw wPost wNullifier wSecret mr20 wPath wIdx 100 = .error .NullifierAlreadyUsed :=
  have h := C10_no_duplicate_check.2.1 ⟨[wNullifier]⟩ wNullifier (by decide) (by simp)
  ⟨h.1, h.2,
   C10_no_duplicate_check.2.2 wPost wNullifier wSecret mr20 wPath wIdx 100 rfl (by decide)
     (by decide) (by decide)⟩

end Nullifier

namespace Nullifier

/-- C2 (amended): once a withdraw with nullifier n succeeds on a pool, n is
recorded (is_used true, exactly one occurrence added by the single successful
add); after any further sequence of operations on that pool that does not
reset the registry (force_close_account on the registry account followed by
initialize_nullifier_registry), no withdraw with n can succeed, and whenever
such a call reaches the nullifier check — the mixer not paused and the
supplied secret nonzero — it fails precisely with NullifierAlreadyUsed. (As
stated the claim is too strong in two ways, see the counterexample: the
admin registry reset empties the spent-nullifier set and lets a replay of n
succeed, and a subsequent call can also fail earlier with MixerPaused or
InvalidSecret instead of NullifierAlreadyUsed.) -/
theorem C2_nullifier_single_use (s s1 : MixerState) (n sec root : Bytes)
    (proof : List Bytes) (idx : List Bool) (now : Int)
    (hok : withdraw s n sec root proof idx now = .ok s1) :
    s1.registry.is_used n = true
    ∧ s.registry.nullifiers.count n = 0
    ∧ s1.registry.nullifiers.count n = 1
    ∧ (∀ (ops : List Op) (sec2 root2 : Bytes) (proof2 : List Bytes) (idx2 : List Bool)
          (now2 : Int),
        Op.reset_registry ∉ ops →
        (withdraw (execOps s1 ops) n sec2 root2 proof2 idx2 now2).isOk = false)
    ∧ (∀ (ops : List Op) (sec2 root2 : Bytes) (proof2 : List Bytes) (idx2 : List Bool)
          (now2 : Int),
        Op.reset_registry ∉ ops →
        (execOps s1 ops).paused = false → ¬ sec2 = zero32 →
        withdraw (execOps s1 ops) n sec2 root2 proof2 idx2 now2 =
          .error .NullifierAlreadyUsed) := by
  obtain ⟨h1, h2, h4, -, -, -, hreg, -⟩ := withdraw_ok_inv s s1 n sec root proof idx now hok
  have hnotmem : ¬ n ∈ s.registry.nullifiers := by
    intro hc
    rw [(is_used_iff s.registry n).mpr hc] at h4
    simp at h4
  have hmem : n ∈ s1.registry.nullifiers := by
    rw [hreg]
    simp
  refine ⟨(is_used_iff s1.registry n).mpr hmem, List.count_eq_zero.mpr hnotmem, ?_, ?_, ?_⟩
  · rw [hreg, List.count_append, List.count_eq_zero.mpr hnotmem]
    simp
  · intro ops sec2 root2 proof2 idx2 now2 hni
    have hm2 := mem_registry_execOps ops s1 n hni hmem
    exact withdraw_used_not_ok (execOps s1 ops) n sec2 root2 proof2 idx2 now2
      ((is_used_iff _ n).mpr hm2)
  · intro ops sec2 root2 proof2 idx2 now2 hni hp hsec
    have hm2 := mem_registry_execOps ops s1 n hni hmem
    exact withdraw_used (execOps s1 ops) n sec2 root2 proof2 idx2 now2 hp h2 hsec
      ((is_used_iff _ n).mpr hm2)

/-- Witness for C2 at the concrete successful withdrawal from wState. -/
theorem C2_witness :
    wPost.registry.is_used wNullifier = true
    ∧ wState.registry.nullifiers.count wNullifier = 0
    ∧ wPost.registry.nullifiers.count wNullifier = 1
    ∧ (withdraw (execOps wPost [Op.pause, Op.unpause]) wNullifier wSecret mr20 wPath wIdx
        200).isOk = false
    ∧ withdraw (execOps wPost []) wNullifier wSecret mr20 wPath wIdx 200 =
        .error .NullifierAlreadyUsed :=
  have h := C2_nullifier_single_use wState wPost wNullifier wSecret mr20 wPath wIdx 100 wOk
  ⟨h.1, h.2.1, h.2.2.1,
   h.2.2.2.1 [Op.pause, Op.unpause] wSecret mr20 wPath wIdx 200 (by decide),
   h.2.2.2.2 [] wSecret mr20 wPath wIdx 200 (by decide) rfl (by decide)⟩

/-- Counterexample for C2 as stated: after the successful withdrawal of
wNullifier it is recorded as spent, but the admin registry reset
(force_close_account on the registry plus initialize_nullifier_registry)
empties the registry, and a second withdraw replaying the very same
nullifier, secret and proof then succeeds and pays out a second time. A
replay can also fail with the wrong error code: with an all-zero secret it is
rejected with InvalidSecret, not NullifierAlreadyUsed. -/
theorem C2_counterexample :
    withdraw wState wNullifier wSecret mr20 wPath wIdx 100 = .ok wPost
    ∧ wPost.registry.is_used wNullifier = true
    ∧ execOps wPost [Op.reset_registry] = { wPost with registry := ⟨[]⟩ }
    ∧ withdraw { wPost with registry := ⟨[]⟩ } wNullifier wSecret mr20 wPath wIdx 100 =
        .ok { wState with
          pool_balance := 1000,
          recipient_balance := 199800000,
          fee_collector_balance := 200000,
          registry := ⟨[wNullifier]⟩,
          pool := { wState.pool with total_withdrawals := 2 } }
    ∧ withdraw wPost wNullifier zero32 mr20 wPath wIdx 100 = .error .InvalidSecret := by
  have hreplay : withdraw { wPost with registry := ⟨[]⟩ } wNullifier wSecret mr20 wPath wIdx
      100 = .ok { wState with
        pool_balance := 1000,
        recipient_balance := 199800000,
        fee_collector_balance := 200000,
        registry := ⟨[wNullifier]⟩,
        pool := { wState.pool with total_withdrawals := 2 } } := by
    have h := withdraw_ok { wPost with registry := ⟨[]⟩ } wNullifier wSecret mr20 wPath wIdx
      100 100 100000 99900000 rfl (by decide) (by decide) rfl wVerifyC (by decide) (by decide)
      (by decide) (by decide) (by decide) (by decide) (by decide) (by decide) (by decide)
      (by decide)
    exact h.trans (by decide)
  exact ⟨wOk, rfl, rfl, hreplay,
    withdraw_zero_secret wPost wNullifier mr20 wPath wIdx 100 rfl (by decide)⟩

/-- C8 (amended): for every withdraw call that passes the earlier checks (not
paused, nonzero nullifier and secret, unused nullifier, valid Merkle proof):
with total_deposits < 2 it is rejected with InsufficientAnonymitySet; with
total_deposits ≥ 2 and the i64 subtraction now - creation_timestamp
overflowing it is rejected with TimeCalculationError; with the subtraction
succeeding and the pool age below min_delay it is rejected with
TimeDelayNotMet; and the withdrawal can succeed only when both gates hold.
(As stated the claim is too strong: when now - creation_timestamp overflows
i64 the error is TimeCalculationError, not TimeDelayNotMet, see the
counterexample.) -/
theorem C8_privacy_gates (s : MixerState) (n sec root : Bytes) (proof : List Bytes)
    (idx : List Bool) (now : Int)
    (h1 : s.paused = false) (h2 : ¬ n = zero32) (h3 : ¬ sec = zero32)
    (h4 : s.registry.is_used n = false)
    (h5 : verify_merkle_proof (compute_commitment sec n) proof idx root = true) :
    (s.pool.total_deposits < 2 →
      withdraw s n sec root proof idx now = .error .InsufficientAnonymitySet)
    ∧ (2 ≤ s.pool.total_deposits → checked_sub_i64 now s.pool.creation_timestamp = none →
        withdraw s n sec root proof idx now = .error .TimeCalculationError)
    ∧ (∀ age : Int, 2 ≤ s.pool.total_deposits →
        checked_sub_i64 now s.pool.creation_timestamp = some age →
        age < s.pool.min_delay →
        withdraw s n sec root proof idx now = .error .TimeDelayNotMet)
    ∧ ((withdraw s n sec root proof idx now).isOk = true →
        2 ≤ s.pool.total_deposits ∧
        ∃ age : Int, checked_sub_i64 now s.pool.creation_timestamp = some age ∧
          s.pool.min_delay ≤ age) := by
  refine ⟨?_, ?_, ?_, ?_⟩
  · intro h6
    exact withdraw_anonymity s n sec root proof idx now h1 h2 h3 h4 h5 h6
  · intro h6 h7
    exact withdraw_time_calc s n sec root proof idx now h1 h2 h3 h4 h5 h6 h7
  · intro age h6 h7 h8
    exact withdraw_time_delay s n sec root proof idx now age h1 h2 h3 h4 h5 h6 h7 h8
  · intro hok
    by_cases h6 : 2 ≤ s.pool.total_deposits
    case neg =>
      rw [withdraw_anonymity s n sec root proof idx now h1 h2 h3 h4 h5 (by omega)] at hok
      simp [Except.isOk, Except.toBool] at hok
    cases h7 : checked_sub_i64 now s.pool.creation_timestamp with
    | none =>
      rw [withdraw_time_calc s n sec root proof idx now h1 h2 h3 h4 h5 h6 h7] at hok
      simp [Except.isOk, Except.toBool] at hok
    | some age =>
      by_cases h8 : s.pool.min_delay ≤ age
      · exact ⟨h6, age, rfl, h8⟩
      · rw [withdraw_time_delay s n sec root proof idx now age h1 h2 h3 h4 h5 h6 h7
          (by omega)] at hok
        simp [Except.isOk, Except.toBool] at hok

/-- Witness for C8: in wState, a withdrawal ten seconds after pool creation is
rejected with TimeDelayNotMet (min_delay is 60). -/
theorem C8_witness :
    withdraw wState wNullifier wSecret mr20 wPath wIdx 10 = .error .TimeDelayNotMet :=
  (C8_privacy_gates wState wNullifier wSecret mr20 wPath wIdx 10 rfl (by decide) (by decide)
    rfl wVerifyC).2.2.1 10 (by decide) (by decide) (by decide)

/-- Counterexample for C8 as stated: in c8State (creation timestamp 1) a
withdraw at now = I64_MIN has now - creation_timestamp = I64_MIN - 1 < 60 =
min_delay, yet it is rejected with TimeCalculationError (the i64 checked
subtraction overflows), not with TimeDelayNotMet. -/
theorem C8_counterexample :
    withdraw c8State wNullifier wSecret mr20 wPath wIdx I64_MIN = .error .TimeCalculationError
    ∧ I64_MIN - c8State.pool.creation_timestamp < c8State.pool.min_delay
    ∧ withdraw c8State wNullifier wSecret mr20 wPath wIdx I64_MIN ≠
        .error .TimeDelayNotMet := by
  have h : withdraw c8State wNullifier wSecret mr20 wPath wIdx I64_MIN =
      .error .TimeCalculationError :=
    withdraw_time_calc c8State wNullifier wSecret mr20 wPath wIdx I64_MIN rfl (by decide)
      (by decide) rfl wVerifyC (by decide) (by decide)
  refine ⟨h, by decide, ?_⟩
  rw [h]
  decide

/-- C6 (amended): in every state reachable from pool creation (with rent below
the smallest denomination) by any sequence of deposit, withdraw and admin
operations, total_withdrawals ≤ total_deposits; and close_pool fails with
PoolHasOutstandingDeposits whenever the two counters differ. (The claim that a
pool can only be torn down when the counters are equal is too strong: the
admin instruction force_close_account sweeps the pool lamports with no counter
guard, see the counterexample.) -/
theorem C6_pool_counters (rent : Nat) (s : MixerState) (hr : Reachable rent s)
    (hrent : rent < DENOMINATION_01_SOL) :
    s.pool.total_withdrawals ≤ s.pool.total_deposits
    ∧ (∀ s2 : MixerState, s2.pool.total_deposits ≠ s2.pool.total_withdrawals →
        close_pool s2 = .error .PoolHasOutstandingDeposits) := by
  refine ⟨(reachable_inv rent s hr hrent).2.1, ?_⟩
  intro s2 hne
  unfold close_pool
  rw [if_pos hne]

/-- Witness for C6 at the freshly created pool and the one-deposit pool. -/
theorem C6_witness :
    initSt.pool.total_withdrawals ≤ initSt.pool.total_deposits
    ∧ close_pool c6State = .error .PoolHasOutstandingDeposits :=
  have h := C6_pool_counters 1000 initSt
    (Reachable.created 100000000 60 0 initSt (by decide)) (by decide)
  ⟨h.1, h.2 c6State (by decide)⟩

/-- Counterexample for C6 as stated: force_close_account sweeps the lamports
of c6State's pool although it has one deposit and no withdrawals. -/
theorem C6_counterexample :
    force_close_pool c6State =
      .ok { c6State with
        pool_balance := 0,
        authority_balance := c6State.authority_balance + c6State.pool_balance }
    ∧ c6State.pool.total_deposits ≠ c6State.pool.total_withdrawals :=
  ⟨rfl, by decide⟩

end Nullifier
